import Mathlib

/-!
Verification of the stat_manager engine (stat_core crate) against its
specification.  The Rust source is shallowly embedded over the rationals:
every f64 of the source becomes a ℚ, Vec becomes List, HashMap over the
five damage types becomes a per-type record, and functions that draw
randomness take an explicit stream of draws.  Definitions follow the
source files named in the comments; definitions that come from the
specification instead (because the corresponding code is not part of the
sources) say so in their doc comments.
-/

set_option maxHeartbeats 1000000

namespace StatCore

/-- Damage types, from loot_core (used throughout stat_core). -/
inductive DamageType where
  | physical
  | fire
  | cold
  | lightning
  | chaos
deriving DecidableEq

/-- Ailment kinds, from loot_core (StatusEffect enum). -/
inductive StatusEffect where
  | poison
  | bleed
  | burn
  | freeze
  | chill
  | static
  | fear
  | slow
deriving DecidableEq

/-- StatValue, from stat_core/src/stat_block/stat_value.rs. -/
structure StatValue where
  base : ℚ := 0
  flat : ℚ := 0
  increased : ℚ := 0
  more : List ℚ := []
deriving DecidableEq

namespace StatValue

/-- StatValue::with_base. -/
def with_base (b : ℚ) : StatValue :=
  { base := b, flat := 0, increased := 0, more := [] }

/-- StatValue::compute: (base + flat) × (1 + increased) × Π(1 + more). -/
def compute (v : StatValue) : ℚ :=
  let base_total := v.base + v.flat
  let increased_mult := 1 + v.increased
  let more_mult := (v.more.map (fun m => 1 + m)).prod
  base_total * increased_mult * more_mult

/-- StatValue::add_flat. -/
def add_flat (v : StatValue) (value : ℚ) : StatValue :=
  { v with flat := v.flat + value }

/-- StatValue::add_increased. -/
def add_increased (v : StatValue) (value : ℚ) : StatValue :=
  { v with increased := v.increased + value }

/-- StatValue::add_more (Vec::push appends at the end). -/
def add_more (v : StatValue) (value : ℚ) : StatValue :=
  { v with more := v.more ++ [value] }

/-- StatValue::total_flat. -/
def total_flat (v : StatValue) : ℚ := v.base + v.flat

/-- StatValue::total_increased_multiplier. -/
def total_increased_multiplier (v : StatValue) : ℚ := 1 + v.increased

/-- StatValue::total_more_multiplier. -/
def total_more_multiplier (v : StatValue) : ℚ :=
  (v.more.map (fun m => 1 + m)).prod

end StatValue

/-! Defense constants, from stat_core/src/defense/mod.rs (module constants). -/

def MAX_RESISTANCE : ℚ := 100

def MIN_RESISTANCE : ℚ := -200

def PENETRATION_VS_CAPPED : ℚ := 1/2

def ARMOUR_CONSTANT : ℚ := 5

def EVASION_SCALE_FACTOR : ℚ := 1000

/-- Rust f64::clamp(lo, hi): values below lo go to lo, above hi go to hi. -/
def rclamp (x lo hi : ℚ) : ℚ := min (max x lo) hi

/-- calculate_effective_resistance, from stat_core/src/defense/resistance.rs. -/
def calculate_effective_resistance (resistance penetration : ℚ) : ℚ :=
  let clamped_resist := rclamp resistance MIN_RESISTANCE MAX_RESISTANCE
  let effective :=
    if MAX_RESISTANCE ≤ clamped_resist then
      MAX_RESISTANCE - penetration * PENETRATION_VS_CAPPED
    else
      clamped_resist - penetration
  rclamp effective MIN_RESISTANCE MAX_RESISTANCE

/-- calculate_resistance_mitigation, from stat_core/src/defense/resistance.rs. -/
def calculate_resistance_mitigation (damage resistance penetration : ℚ) : ℚ :=
  if damage ≤ 0 then 0
  else
    let effective_resist := calculate_effective_resistance resistance penetration
    let mitigation := effective_resist / 100
    let damage_mult := 1 - mitigation
    max (damage * damage_mult) 0

/-- calculate_armour_reduction, from stat_core/src/defense/armour.rs. -/
def calculate_armour_reduction (armour damage : ℚ) : ℚ :=
  if damage ≤ 0 then 0
  else if armour ≤ 0 then damage
  else
    let reduction_percent := armour / (armour + ARMOUR_CONSTANT * damage)
    let reduced := damage * (1 - reduction_percent)
    max reduced 0

/-- calculate_damage_cap, from stat_core/src/defense/evasion.rs. -/
def calculate_damage_cap (accuracy evasion : ℚ) : ℚ :=
  if accuracy ≤ 0 then 0
  else if evasion ≤ 0 then accuracy
  else accuracy / (1 + evasion / EVASION_SCALE_FACTOR)

/-- apply_evasion_cap, from stat_core/src/defense/evasion.rs; returns
(damage_taken, damage_evaded). -/
def apply_evasion_cap (accuracy evasion damage : ℚ) : ℚ × ℚ :=
  if damage ≤ 0 then (0, 0)
  else
    let cap := calculate_damage_cap accuracy evasion
    if damage ≤ cap then (damage, 0)
    else (cap, damage - cap)

/-- Effective resistance as the C2 claim words it (no clamp on the capped
branch, and the raw resistance fed unclamped into the uncapped branch);
written from the specification sentence to compare against the code. -/
def claimed_effective_resistance (resistance penetration : ℚ) : ℚ :=
  if MAX_RESISTANCE ≤ resistance then
    MAX_RESISTANCE - PENETRATION_VS_CAPPED * penetration
  else
    rclamp (resistance - penetration) MIN_RESISTANCE MAX_RESISTANCE

/-- Effective resistance as the amended C2 claim words it: the input
resistance is clamped to [MIN, MAX] before the branch, and the branch
result is clamped to [MIN, MAX] again. -/
def amended_effective_resistance (resistance penetration : ℚ) : ℚ :=
  if MAX_RESISTANCE ≤ resistance then
    rclamp (MAX_RESISTANCE - PENETRATION_VS_CAPPED * penetration)
      MIN_RESISTANCE MAX_RESISTANCE
  else
    rclamp (rclamp resistance MIN_RESISTANCE MAX_RESISTANCE - penetration)
      MIN_RESISTANCE MAX_RESISTANCE

/-! DoT system, from stat_core/src/dot. -/

/-- DotStacking, from stat_core/src/dot/types.rs. -/
inductive DotStacking where
  | strongestOnly
  | unlimited
  | limited (max_stacks : ℕ) (stack_effectiveness : ℚ)
deriving DecidableEq

/-- DotConfig, from stat_core/src/dot/types.rs. -/
structure DotConfig where
  id : String
  name : String
  damage_type : DamageType
  stacking : DotStacking
  base_duration : ℚ
  tick_rate : ℚ
  base_damage_percent : ℚ := 0
  max_stacks : ℕ := 1
  stack_effectiveness : ℚ := 1
  moving_multiplier : ℚ := 1
deriving DecidableEq

/-- ActiveDoT, from stat_core/src/dot/active.rs. -/
structure ActiveDoT where
  dot_type : String
  source_id : String
  damage_type : DamageType
  damage_per_tick : ℚ
  tick_rate : ℚ
  time_until_tick : ℚ
  duration_remaining : ℚ
  total_duration : ℚ
  effectiveness : ℚ
  is_strongest : Bool
deriving DecidableEq

namespace ActiveDoT

/-- ActiveDoT::new. -/
def new (dot_type source_id : String) (damage_type : DamageType)
    (damage_per_tick tick_rate duration : ℚ) : ActiveDoT :=
  { dot_type := dot_type, source_id := source_id, damage_type := damage_type,
    damage_per_tick := damage_per_tick, tick_rate := tick_rate,
    time_until_tick := tick_rate, duration_remaining := duration,
    total_duration := duration, effectiveness := 1, is_strongest := true }

/-- ActiveDoT::is_active. -/
def is_active (d : ActiveDoT) : Bool := 0 < d.duration_remaining

/-- ActiveDoT::refresh: takes the higher damage_per_tick, always resets the
duration to the new one. -/
def refresh (d : ActiveDoT) (new_duration new_damage_per_tick : ℚ) : ActiveDoT :=
  let d1 :=
    if d.damage_per_tick < new_damage_per_tick then
      { d with damage_per_tick := new_damage_per_tick }
    else d
  { d1 with duration_remaining := new_duration, total_duration := new_duration }

end ActiveDoT

/-- Generic helper mirroring iter_mut().find followed by a mutation of the
found element: rewrites the first element satisfying the predicate. -/
def update_first {α : Type} (p : α → Bool) (f : α → α) : List α → List α
  | [] => []
  | x :: rest => if p x then f x :: rest else x :: update_first p f rest

/-- Index of the first element satisfying the predicate (for stating which
element update_first touches). -/
def find_first_idx {α : Type} (p : α → Bool) : List α → Option ℕ
  | [] => none
  | x :: rest =>
      if p x then some 0 else (find_first_idx p rest).map (fun n => n + 1)

/-- Damage per tick of the strongest instance of a type, from
recalculate_strongest in stat_core/src/dot/tick.rs (fold of f64::max with
initial value 0.0). -/
def max_damage_of_type (dots : List ActiveDoT) (t : String) : ℚ :=
  ((dots.filter (fun d => d.dot_type == t)).map (fun d => d.damage_per_tick)).foldl
    (fun m x => max m x) 0

/-- Body of recalculate_strongest: walks the list, marking as strongest the
first instance of each type whose damage is within 0.01 of that type's
maximum, and clearing the flag on every other instance.  The source loops
over the set of types; the per-type passes are independent, so a single walk
with the set of already-marked types is equivalent. -/
def recalc_strongest_aux (all : List ActiveDoT) :
    List ActiveDoT → List String → List ActiveDoT
  | [], _ => []
  | d :: rest, seen =>
      let maxD := max_damage_of_type all d.dot_type
      if d.dot_type ∉ seen ∧ |d.damage_per_tick - maxD| < 1/100 then
        { d with is_strongest := true } :: recalc_strongest_aux all rest (d.dot_type :: seen)
      else
        { d with is_strongest := false } :: recalc_strongest_aux all rest seen

/-- recalculate_strongest, from stat_core/src/dot/tick.rs. -/
def recalculate_strongest (dots : List ActiveDoT) : List ActiveDoT :=
  recalc_strongest_aux dots dots []

/-- apply_dot, from stat_core/src/dot/tick.rs: applies a new DoT under the
configured stacking rule, then recomputes the strongest flags. -/
def apply_dot (dots : List ActiveDoT) (new_dot : ActiveDoT) (config : DotConfig) :
    List ActiveDoT :=
  let dots1 :=
    match config.stacking with
    | DotStacking.strongestOnly =>
        if dots.any (fun d => d.dot_type == new_dot.dot_type) then
          update_first (fun d => d.dot_type == new_dot.dot_type)
            (fun d =>
              if d.damage_per_tick ≤ new_dot.damage_per_tick then
                d.refresh new_dot.total_duration new_dot.damage_per_tick
              else d)
            dots
        else dots ++ [new_dot]
    | DotStacking.unlimited => dots ++ [new_dot]
    | DotStacking.limited max_stacks stack_effectiveness =>
        let existing_count :=
          (dots.filter (fun d => d.dot_type == new_dot.dot_type)).length
        if existing_count < max_stacks then
          let dot_to_add :=
            if 0 < existing_count then
              { new_dot with effectiveness := stack_effectiveness,
                             is_strongest := false }
            else new_dot
          dots ++ [dot_to_add]
        else
          update_first (fun d => d.dot_type == new_dot.dot_type && !d.is_strongest)
            (fun d => d.refresh new_dot.total_duration new_dot.damage_per_tick)
            dots
  recalculate_strongest dots1

/-- DotTickResult, from stat_core/src/dot/tick.rs. -/
structure DotTickResult where
  damage_by_type : List (DamageType × ℚ) := []
  expired_dots : List String := []
  total_damage : ℚ := 0
deriving DecidableEq

/-- DotTickResult::add_damage. -/
def DotTickResult.add_damage (r : DotTickResult) (damage_type : DamageType)
    (amount : ℚ) : DotTickResult :=
  if r.damage_by_type.any (fun e => e.1 == damage_type) then
    { r with
      damage_by_type :=
        update_first (fun e => e.1 == damage_type) (fun e => (e.1, e.2 + amount))
          r.damage_by_type,
      total_damage := r.total_damage + amount }
  else
    { r with damage_by_type := r.damage_by_type ++ [(damage_type, amount)],
             total_damage := r.total_damage + amount }

/-- The tick-emission loop shared by Effect::tick and process_dot_tick:
while time_until_tick ≤ 0 and the (fixed) remaining duration is positive,
emit one tick's damage and push time_until_tick forward by tick_rate.
Returns (total damage emitted, final time_until_tick).  A non-positive
tick_rate would make the source loop run forever, so the guard includes
0 < rate; every constructor in the source uses a positive tick rate. -/
def tickLoop (ttt rate dur per : ℚ) : ℚ × ℚ :=
  if h : ttt ≤ 0 ∧ 0 < dur ∧ 0 < rate then
    let rest := tickLoop (ttt + rate) rate dur per
    (rest.1 + per, rest.2)
  else
    (0, ttt)
termination_by (⌊(-ttt) / rate⌋ + 1).toNat
decreasing_by
  obtain ⟨h1, _, h3⟩ := h
  have hx : (0 : ℚ) ≤ (-ttt) / rate := div_nonneg (by linarith) h3.le
  have hk : (0 : ℤ) ≤ ⌊(-ttt) / rate⌋ := Int.floor_nonneg.mpr hx
  have hre : (-(ttt + rate)) / rate = (-ttt) / rate - 1 := by
    field_simp
    ring
  rw [hre, Int.floor_sub_one]
  omega

/-- process_dot_tick, from stat_core/src/dot/tick.rs: for every DoT,
decrement duration_remaining and time_until_tick by delta, then emit due
ticks (damage_per_tick · effectiveness, times the config's moving
multiplier when the target is moving); finally report and drop the DoTs
that are no longer active.  Per-tick add_damage calls of one DoT all target
the same damage type, so they are accumulated into one add_damage call. -/
def process_dot_tick (dots : List ActiveDoT) (delta_time : ℚ) (is_moving : Bool)
    (configs : List (String × DotConfig)) : List ActiveDoT × DotTickResult :=
  let step := dots.foldl
    (fun (st : List ActiveDoT × DotTickResult) dot =>
      let dot1 := { dot with
        duration_remaining := dot.duration_remaining - delta_time,
        time_until_tick := dot.time_until_tick - delta_time }
      let base_tick_damage := dot1.damage_per_tick * dot1.effectiveness
      let tick_damage :=
        if is_moving then
          match List.lookup dot1.dot_type configs with
          | some config => base_tick_damage * config.moving_multiplier
          | none => base_tick_damage
        else base_tick_damage
      let emitted := tickLoop dot1.time_until_tick dot1.tick_rate
        dot1.duration_remaining tick_damage
      let dot2 := { dot1 with time_until_tick := emitted.2 }
      let res :=
        if dot1.time_until_tick ≤ 0 ∧ 0 < dot1.duration_remaining ∧ 0 < dot1.tick_rate
        then st.2.add_damage dot1.damage_type emitted.1
        else st.2
      (st.1 ++ [dot2], res))
    ([], {})
  let updated := step.1
  let result := { step.2 with
    expired_dots := (updated.filter (fun d => !d.is_active)).map (fun d => d.dot_type) }
  (updated.filter (fun d => d.is_active), result)

/-! Unified effect system, from stat_core/src/types.rs. -/

/-- A stat modification carried by a StatModifier effect (StatMod in
stat_core/src/types.rs).  The loot_core StatType enum is abstracted to its
name: no claim inspects individual stat identifiers. -/
structure StatMod where
  stat : String
  value_per_stack : ℚ
  is_more : Bool
deriving DecidableEq

/-- AilmentStacking, from stat_core/src/types.rs. -/
inductive AilmentStacking where
  | strongestOnly
  | unlimited
  | limited (stack_effectiveness : ℚ)
deriving DecidableEq

/-- EffectType, from stat_core/src/types.rs. -/
inductive EffectType where
  | statModifier (modifiers : List StatMod) (is_debuff : Bool)
  | ailment (status : StatusEffect) (magnitude dot_dps tick_rate time_until_tick : ℚ)
      (stacking : AilmentStacking) (effectiveness : ℚ)
deriving DecidableEq

/-- Effect, from stat_core/src/types.rs.  The source field named stacks is
called stack_count here because that word is reserved in this environment. -/
structure Effect where
  id : String
  name : String
  effect_type : EffectType
  duration_remaining : ℚ
  total_duration : ℚ
  stack_count : ℕ
  max_stacks : ℕ
  source_id : String
deriving DecidableEq

namespace Effect

/-- Effect::new_ailment. -/
def new_ailment (id name : String) (status : StatusEffect)
    (duration magnitude dot_dps tick_rate : ℚ) (stacking : AilmentStacking)
    (source_id : String) : Effect :=
  { id := id, name := name,
    effect_type := EffectType.ailment status magnitude dot_dps tick_rate
      tick_rate stacking 1,
    duration_remaining := duration, total_duration := duration,
    stack_count := 1, max_stacks := 999, source_id := source_id }

/-- Effect::poison. -/
def poison (dot_dps : ℚ) (source_id : String) : Effect :=
  new_ailment "poison" "Poison" StatusEffect.poison 2 0 dot_dps (33/100)
    AilmentStacking.unlimited source_id

/-- Effect::bleed. -/
def bleed (dot_dps : ℚ) (source_id : String) : Effect :=
  { new_ailment "bleed" "Bleed" StatusEffect.bleed 5 0 dot_dps 1
      (AilmentStacking.limited (1/2)) source_id with max_stacks := 8 }

/-- Effect::burn. -/
def burn (dot_dps : ℚ) (source_id : String) : Effect :=
  new_ailment "burn" "Burn" StatusEffect.burn 4 0 dot_dps (1/2)
    AilmentStacking.strongestOnly source_id

/-- Effect::freeze. -/
def freeze (magnitude : ℚ) (source_id : String) : Effect :=
  new_ailment "freeze" "Freeze" StatusEffect.freeze (1/2) magnitude 0 (1/10)
    AilmentStacking.strongestOnly source_id

/-- Effect::chill. -/
def chill (magnitude : ℚ) (source_id : String) : Effect :=
  new_ailment "chill" "Chill" StatusEffect.chill 2 magnitude 0 (1/2)
    AilmentStacking.strongestOnly source_id

/-- Effect::shock (Static ailment). -/
def shock (magnitude : ℚ) (source_id : String) : Effect :=
  { new_ailment "static" "Static" StatusEffect.static 1 magnitude 0 (1/4)
      (AilmentStacking.limited 1) source_id with max_stacks := 3 }

/-- Effect::fear. -/
def fear (magnitude : ℚ) (source_id : String) : Effect :=
  new_ailment "fear" "Fear" StatusEffect.fear (3/2) magnitude 0 (1/2)
    AilmentStacking.strongestOnly source_id

/-- Effect::slow. -/
def slow (magnitude : ℚ) (source_id : String) : Effect :=
  new_ailment "slow" "Slow" StatusEffect.slow 3 magnitude 0 (1/2)
    AilmentStacking.strongestOnly source_id

/-- Effect::base_duration_for. -/
def base_duration_for (status : StatusEffect) : ℚ :=
  match status with
  | StatusEffect.poison => 2
  | StatusEffect.bleed => 5
  | StatusEffect.burn => 4
  | StatusEffect.freeze => 1/2
  | StatusEffect.chill => 2
  | StatusEffect.static => 1
  | StatusEffect.fear => 3/2
  | StatusEffect.slow => 3

/-- Effect::base_dot_percent_for. -/
def base_dot_percent_for (status : StatusEffect) : ℚ :=
  match status with
  | StatusEffect.poison => 1/5
  | StatusEffect.bleed => 1/5
  | StatusEffect.burn => 1/4
  | _ => 0

/-- Effect::is_active. -/
def is_active (e : Effect) : Bool :=
  0 < e.duration_remaining && 0 < e.stack_count

/-- Effect::is_damaging. -/
def is_damaging (e : Effect) : Bool :=
  match e.effect_type with
  | EffectType.ailment _ _ dot_dps _ _ _ _ => 0 < dot_dps
  | _ => false

/-- Effect::dps. -/
def dps (e : Effect) : ℚ :=
  match e.effect_type with
  | EffectType.ailment _ _ dot_dps _ _ _ effectiveness =>
      dot_dps * (e.stack_count : ℚ) * effectiveness
  | _ => 0

/-- Effect::add_stack. -/
def add_stack (e : Effect) : Effect :=
  if e.stack_count < e.max_stacks then { e with stack_count := e.stack_count + 1 } else e

/-- Effect::refresh. -/
def refresh (e : Effect) (new_duration : ℚ) : Effect :=
  { e with duration_remaining := new_duration, total_duration := new_duration }

/-- Effect::tick: for damaging ailments, decrement time_until_tick by delta
and emit due ticks against the still-undecremented duration; then decrement
duration_remaining by delta.  Returns the updated effect and the damage
dealt. -/
def tick (e : Effect) (delta : ℚ) : Effect × ℚ :=
  match e.effect_type with
  | EffectType.ailment status magnitude dot_dps tick_rate time_until_tick
      stacking effectiveness =>
      if 0 < dot_dps then
        let ttt1 := time_until_tick - delta
        let emitted := tickLoop ttt1 tick_rate e.duration_remaining
          (dot_dps * tick_rate * (e.stack_count : ℚ) * effectiveness)
        ({ e with
            effect_type := EffectType.ailment status magnitude dot_dps tick_rate
              emitted.2 stacking effectiveness,
            duration_remaining := e.duration_remaining - delta },
          emitted.1)
      else
        ({ e with duration_remaining := e.duration_remaining - delta }, 0)
  | _ => ({ e with duration_remaining := e.duration_remaining - delta }, 0)

end Effect

/-! Stat aggregation, from stat_core/src/stat_block/aggregator.rs. -/

/-- StatusEffectStats, from stat_core/src/stat_block/aggregator.rs. -/
structure StatusEffectStats where
  dot_increased : ℚ := 0
  duration_increased : ℚ := 0
  magnitude : ℚ := 0
  max_stacks : ℤ := 0
deriving DecidableEq

/-- StatusConversions, from stat_core/src/stat_block/aggregator.rs. -/
structure StatusConversions where
  from_physical : ℚ := 0
  from_fire : ℚ := 0
  from_cold : ℚ := 0
  from_lightning : ℚ := 0
  from_chaos : ℚ := 0
deriving DecidableEq

/-- StatusConversions::total. -/
def StatusConversions.total (c : StatusConversions) : ℚ :=
  c.from_physical + c.from_fire + c.from_cold + c.from_lightning + c.from_chaos

/-- StatusConversions::from_damage_type. -/
def StatusConversions.from_damage_type (c : StatusConversions) :
    DamageType → ℚ
  | DamageType.physical => c.from_physical
  | DamageType.fire => c.from_fire
  | DamageType.cold => c.from_cold
  | DamageType.lightning => c.from_lightning
  | DamageType.chaos => c.from_chaos

/-- StatusEffectData, from stat_core/src/stat_block/mod.rs. -/
structure StatusEffectData where
  poison : StatusEffectStats := {}
  poison_conversions : StatusConversions := {}
  bleed : StatusEffectStats := {}
  bleed_conversions : StatusConversions := {}
  burn : StatusEffectStats := {}
  burn_conversions : StatusConversions := {}
  freeze : StatusEffectStats := {}
  freeze_conversions : StatusConversions := {}
  chill : StatusEffectStats := {}
  chill_conversions : StatusConversions := {}
  static_effect : StatusEffectStats := {}
  static_conversions : StatusConversions := {}
  fear : StatusEffectStats := {}
  fear_conversions : StatusConversions := {}
  slow : StatusEffectStats := {}
  slow_conversions : StatusConversions := {}
deriving DecidableEq

/-- StatusEffectData::get_stats. -/
def StatusEffectData.get_stats (d : StatusEffectData) :
    StatusEffect → StatusEffectStats
  | StatusEffect.poison => d.poison
  | StatusEffect.bleed => d.bleed
  | StatusEffect.burn => d.burn
  | StatusEffect.freeze => d.freeze
  | StatusEffect.chill => d.chill
  | StatusEffect.static => d.static_effect
  | StatusEffect.fear => d.fear
  | StatusEffect.slow => d.slow

/-- StatusEffectData::get_conversions. -/
def StatusEffectData.get_conversions (d : StatusEffectData) :
    StatusEffect → StatusConversions
  | StatusEffect.poison => d.poison_conversions
  | StatusEffect.bleed => d.bleed_conversions
  | StatusEffect.burn => d.burn_conversions
  | StatusEffect.freeze => d.freeze_conversions
  | StatusEffect.chill => d.chill_conversions
  | StatusEffect.static => d.static_conversions
  | StatusEffect.fear => d.fear_conversions
  | StatusEffect.slow => d.slow_conversions

/-- StatusEffectData::calculate_status_damage. -/
def StatusEffectData.calculate_status_damage (d : StatusEffectData)
    (effect : StatusEffect) (damages : List (DamageType × ℚ)) : ℚ :=
  let conversions := d.get_conversions effect
  let stats := d.get_stats effect
  let status_damage := damages.foldl
    (fun acc entry => acc + entry.2 * conversions.from_damage_type entry.1) 0
  status_damage * (1 + stats.magnitude)

/-- StatAccumulator, from stat_core/src/stat_block/aggregator.rs.  Every
field defaults to zero / empty, matching StatAccumulator::new. -/
structure StatAccumulator where
  life_flat : ℚ := 0
  life_increased : ℚ := 0
  life_more : List ℚ := []
  mana_flat : ℚ := 0
  mana_increased : ℚ := 0
  mana_more : List ℚ := []
  strength_flat : ℚ := 0
  dexterity_flat : ℚ := 0
  intelligence_flat : ℚ := 0
  constitution_flat : ℚ := 0
  wisdom_flat : ℚ := 0
  charisma_flat : ℚ := 0
  all_attributes_flat : ℚ := 0
  armour_flat : ℚ := 0
  armour_increased : ℚ := 0
  evasion_flat : ℚ := 0
  evasion_increased : ℚ := 0
  energy_shield_flat : ℚ := 0
  energy_shield_increased : ℚ := 0
  fire_resistance : ℚ := 0
  cold_resistance : ℚ := 0
  lightning_resistance : ℚ := 0
  chaos_resistance : ℚ := 0
  all_resistances : ℚ := 0
  physical_damage_flat : ℚ := 0
  physical_damage_increased : ℚ := 0
  physical_damage_more : List ℚ := []
  fire_damage_flat : ℚ := 0
  fire_damage_increased : ℚ := 0
  fire_damage_more : List ℚ := []
  cold_damage_flat : ℚ := 0
  cold_damage_increased : ℚ := 0
  cold_damage_more : List ℚ := []
  lightning_damage_flat : ℚ := 0
  lightning_damage_increased : ℚ := 0
  lightning_damage_more : List ℚ := []
  chaos_damage_flat : ℚ := 0
  chaos_damage_increased : ℚ := 0
  chaos_damage_more : List ℚ := []
  elemental_damage_increased : ℚ := 0
  attack_speed_increased : ℚ := 0
  cast_speed_increased : ℚ := 0
  critical_chance_flat : ℚ := 0
  critical_chance_increased : ℚ := 0
  critical_multiplier_flat : ℚ := 0
  fire_penetration : ℚ := 0
  cold_penetration : ℚ := 0
  lightning_penetration : ℚ := 0
  chaos_penetration : ℚ := 0
  life_regen_flat : ℚ := 0
  mana_regen_flat : ℚ := 0
  life_leech_percent : ℚ := 0
  mana_leech_percent : ℚ := 0
  life_on_hit : ℚ := 0
  accuracy_flat : ℚ := 0
  accuracy_increased : ℚ := 0
  movement_speed_increased : ℚ := 0
  item_rarity_increased : ℚ := 0
  item_quantity_increased : ℚ := 0
  weapon_physical_min : ℚ := 0
  weapon_physical_max : ℚ := 0
  weapon_physical_increased : ℚ := 0
  weapon_elemental_damages : List (DamageType × ℚ × ℚ) := []
  weapon_attack_speed : ℚ := 0
  weapon_crit_chance : ℚ := 0
  poison_dot_increased : ℚ := 0
  poison_duration_increased : ℚ := 0
  poison_magnitude : ℚ := 0
  poison_max_stacks : ℤ := 0
  convert_physical_to_poison : ℚ := 0
  convert_fire_to_poison : ℚ := 0
  convert_cold_to_poison : ℚ := 0
  convert_lightning_to_poison : ℚ := 0
  convert_chaos_to_poison : ℚ := 0
  bleed_dot_increased : ℚ := 0
  bleed_duration_increased : ℚ := 0
  bleed_magnitude : ℚ := 0
  bleed_max_stacks : ℤ := 0
  convert_physical_to_bleed : ℚ := 0
  convert_fire_to_bleed : ℚ := 0
  convert_cold_to_bleed : ℚ := 0
  convert_lightning_to_bleed : ℚ := 0
  convert_chaos_to_bleed : ℚ := 0
  burn_dot_increased : ℚ := 0
  burn_duration_increased : ℚ := 0
  burn_magnitude : ℚ := 0
  burn_max_stacks : ℤ := 0
  convert_physical_to_burn : ℚ := 0
  convert_fire_to_burn : ℚ := 0
  convert_cold_to_burn : ℚ := 0
  convert_lightning_to_burn : ℚ := 0
  convert_chaos_to_burn : ℚ := 0
  freeze_duration_increased : ℚ := 0
  freeze_magnitude : ℚ := 0
  freeze_max_stacks : ℤ := 0
  convert_physical_to_freeze : ℚ := 0
  convert_fire_to_freeze : ℚ := 0
  convert_cold_to_freeze : ℚ := 0
  convert_lightning_to_freeze : ℚ := 0
  convert_chaos_to_freeze : ℚ := 0
  chill_duration_increased : ℚ := 0
  chill_magnitude : ℚ := 0
  chill_max_stacks : ℤ := 0
  convert_physical_to_chill : ℚ := 0
  convert_fire_to_chill : ℚ := 0
  convert_cold_to_chill : ℚ := 0
  convert_lightning_to_chill : ℚ := 0
  convert_chaos_to_chill : ℚ := 0
  static_duration_increased : ℚ := 0
  static_magnitude : ℚ := 0
  static_max_stacks : ℤ := 0
  convert_physical_to_static : ℚ := 0
  convert_fire_to_static : ℚ := 0
  convert_cold_to_static : ℚ := 0
  convert_lightning_to_static : ℚ := 0
  convert_chaos_to_static : ℚ := 0
  fear_duration_increased : ℚ := 0
  fear_magnitude : ℚ := 0
  fear_max_stacks : ℤ := 0
  convert_physical_to_fear : ℚ := 0
  convert_fire_to_fear : ℚ := 0
  convert_cold_to_fear : ℚ := 0
  convert_lightning_to_fear : ℚ := 0
  convert_chaos_to_fear : ℚ := 0
  slow_duration_increased : ℚ := 0
  slow_magnitude : ℚ := 0
  slow_max_stacks : ℤ := 0
  convert_physical_to_slow : ℚ := 0
  convert_fire_to_slow : ℚ := 0
  convert_cold_to_slow : ℚ := 0
  convert_lightning_to_slow : ℚ := 0
  convert_chaos_to_slow : ℚ := 0

namespace StatAccumulator

/-- StatAccumulator::new. -/
def new : StatAccumulator := {}

/-- StatAccumulator::get_status_stats. -/
def get_status_stats (a : StatAccumulator) : StatusEffect → StatusEffectStats
  | StatusEffect.poison =>
      { dot_increased := a.poison_dot_increased,
        duration_increased := a.poison_duration_increased,
        magnitude := a.poison_magnitude, max_stacks := a.poison_max_stacks }
  | StatusEffect.bleed =>
      { dot_increased := a.bleed_dot_increased,
        duration_increased := a.bleed_duration_increased,
        magnitude := a.bleed_magnitude, max_stacks := a.bleed_max_stacks }
  | StatusEffect.burn =>
      { dot_increased := a.burn_dot_increased,
        duration_increased := a.burn_duration_increased,
        magnitude := a.burn_magnitude, max_stacks := a.burn_max_stacks }
  | StatusEffect.freeze =>
      { dot_increased := 0,
        duration_increased := a.freeze_duration_increased,
        magnitude := a.freeze_magnitude, max_stacks := a.freeze_max_stacks }
  | StatusEffect.chill =>
      { dot_increased := 0,
        duration_increased := a.chill_duration_increased,
        magnitude := a.chill_magnitude, max_stacks := a.chill_max_stacks }
  | StatusEffect.static =>
      { dot_increased := 0,
        duration_increased := a.static_duration_increased,
        magnitude := a.static_magnitude, max_stacks := a.static_max_stacks }
  | StatusEffect.fear =>
      { dot_increased := 0,
        duration_increased := a.fear_duration_increased,
        magnitude := a.fear_magnitude, max_stacks := a.fear_max_stacks }
  | StatusEffect.slow =>
      { dot_increased := 0,
        duration_increased := a.slow_duration_increased,
        magnitude := a.slow_magnitude, max_stacks := a.slow_max_stacks }

/-- StatAccumulator::get_status_conversions. -/
def get_status_conversions (a : StatAccumulator) :
    StatusEffect → StatusConversions
  | StatusEffect.poison =>
      { from_physical := a.convert_physical_to_poison,
        from_fire := a.convert_fire_to_poison,
        from_cold := a.convert_cold_to_poison,
        from_lightning := a.convert_lightning_to_poison,
        from_chaos := a.convert_chaos_to_poison }
  | StatusEffect.bleed =>
      { from_physical := a.convert_physical_to_bleed,
        from_fire := a.convert_fire_to_bleed,
        from_cold := a.convert_cold_to_bleed,
        from_lightning := a.convert_lightning_to_bleed,
        from_chaos := a.convert_chaos_to_bleed }
  | StatusEffect.burn =>
      { from_physical := a.convert_physical_to_burn,
        from_fire := a.convert_fire_to_burn,
        from_cold := a.convert_cold_to_burn,
        from_lightning := a.convert_lightning_to_burn,
        from_chaos := a.convert_chaos_to_burn }
  | StatusEffect.freeze =>
      { from_physical := a.convert_physical_to_freeze,
        from_fire := a.convert_fire_to_freeze,
        from_cold := a.convert_cold_to_freeze,
        from_lightning := a.convert_lightning_to_freeze,
        from_chaos := a.convert_chaos_to_freeze }
  | StatusEffect.chill =>
      { from_physical := a.convert_physical_to_chill,
        from_fire := a.convert_fire_to_chill,
        from_cold := a.convert_cold_to_chill,
        from_lightning := a.convert_lightning_to_chill,
        from_chaos := a.convert_chaos_to_chill }
  | StatusEffect.static =>
      { from_physical := a.convert_physical_to_static,
        from_fire := a.convert_fire_to_static,
        from_cold := a.convert_cold_to_static,
        from_lightning := a.convert_lightning_to_static,
        from_chaos := a.convert_chaos_to_static }
  | StatusEffect.fear =>
      { from_physical := a.convert_physical_to_fear,
        from_fire := a.convert_fire_to_fear,
        from_cold := a.convert_cold_to_fear,
        from_lightning := a.convert_lightning_to_fear,
        from_chaos := a.convert_chaos_to_fear }
  | StatusEffect.slow =>
      { from_physical := a.convert_physical_to_slow,
        from_fire := a.convert_fire_to_slow,
        from_cold := a.convert_cold_to_slow,
        from_lightning := a.convert_lightning_to_slow,
        from_chaos := a.convert_chaos_to_slow }

end StatAccumulator

/-! StatBlock, from stat_core/src/stat_block/mod.rs. -/

/-- Equipment slots, from stat_core/src/types.rs. -/
inductive EquipmentSlot where
  | mainHand
  | offHand
  | helmet
  | bodyArmour
  | gloves
  | boots
  | ring1
  | ring2
  | amulet
  | belt
deriving DecidableEq

/-- Items are opaque read-only aggregates delivered by an external
collaborator (spec section 1); the StatBlock operations verified here only
move equipped items around, so an item is abstracted to its identity. -/
structure Item where
  item_id : String
deriving DecidableEq

/-- Buff sources feeding the internal rebuild (stat_core/src/source/buff.rs);
rebuild_from_sources carries them through untouched, so they are abstracted
to their identity. -/
structure BuffSource where
  buff_id : String
deriving DecidableEq

/-- ActiveBuff, from stat_core/src/types.rs (field stacks renamed to
stack_count, see Effect). -/
structure ActiveBuff where
  buff_id : String
  name : String
  duration_remaining : ℚ
  stack_count : ℕ
  is_debuff : Bool
deriving DecidableEq

/-- ActiveStatusEffect, from stat_core/src/types.rs (field stacks renamed to
stack_count). -/
structure ActiveStatusEffect where
  effect_type : StatusEffect
  duration_remaining : ℚ
  stack_count : ℕ
  magnitude : ℚ
  dot_dps : ℚ
  source_id : String
deriving DecidableEq

/-- StatBlock, from stat_core/src/stat_block/mod.rs.  The equipped-items
HashMap is modelled as an association list.  The repository also contains a
unified-effects variant of StatBlock whose effects list resolve_damage
appends to through add_effect; that list is included here as the effects
field (the variant is not among the sources, see add_effect below). -/
structure StatBlock where
  id : String
  equipped_items : List (EquipmentSlot × Item)
  buff_sources : List BuffSource
  max_life : StatValue
  current_life : ℚ
  max_mana : StatValue
  current_mana : ℚ
  max_energy_shield : ℚ
  current_energy_shield : ℚ
  strength : StatValue
  dexterity : StatValue
  intelligence : StatValue
  constitution : StatValue
  wisdom : StatValue
  charisma : StatValue
  armour : StatValue
  evasion : StatValue
  fire_resistance : StatValue
  cold_resistance : StatValue
  lightning_resistance : StatValue
  chaos_resistance : StatValue
  accuracy : StatValue
  global_physical_damage : StatValue
  global_fire_damage : StatValue
  global_cold_damage : StatValue
  global_lightning_damage : StatValue
  global_chaos_damage : StatValue
  attack_speed : StatValue
  cast_speed : StatValue
  critical_chance : StatValue
  critical_multiplier : StatValue
  fire_penetration : StatValue
  cold_penetration : StatValue
  lightning_penetration : StatValue
  chaos_penetration : StatValue
  life_regen : StatValue
  mana_regen : StatValue
  life_leech : StatValue
  mana_leech : StatValue
  movement_speed_increased : ℚ
  item_rarity_increased : ℚ
  item_quantity_increased : ℚ
  active_dots : List ActiveDoT
  active_buffs : List ActiveBuff
  active_status_effects : List ActiveStatusEffect
  effects : List Effect
  weapon_physical_min : ℚ
  weapon_physical_max : ℚ
  weapon_fire_min : ℚ
  weapon_fire_max : ℚ
  weapon_cold_min : ℚ
  weapon_cold_max : ℚ
  weapon_lightning_min : ℚ
  weapon_lightning_max : ℚ
  weapon_chaos_min : ℚ
  weapon_chaos_max : ℚ
  weapon_attack_speed : ℚ
  weapon_crit_chance : ℚ
  status_effect_stats : StatusEffectData

namespace StatBlock

/-- StatBlock::with_id: the documented base defaults. -/
def with_id (id : String) : StatBlock :=
  { id := id,
    equipped_items := [],
    buff_sources := [],
    max_life := StatValue.with_base 50,
    current_life := 50,
    max_mana := StatValue.with_base 40,
    current_mana := 40,
    max_energy_shield := 0,
    current_energy_shield := 0,
    strength := StatValue.with_base 10,
    dexterity := StatValue.with_base 10,
    intelligence := StatValue.with_base 10,
    constitution := StatValue.with_base 10,
    wisdom := StatValue.with_base 10,
    charisma := StatValue.with_base 10,
    armour := {},
    evasion := {},
    fire_resistance := {},
    cold_resistance := {},
    lightning_resistance := {},
    chaos_resistance := {},
    accuracy := StatValue.with_base 1000,
    global_physical_damage := {},
    global_fire_damage := {},
    global_cold_damage := {},
    global_lightning_damage := {},
    global_chaos_damage := {},
    attack_speed := StatValue.with_base 1,
    cast_speed := StatValue.with_base 1,
    critical_chance := {},
    critical_multiplier := StatValue.with_base (3/2),
    fire_penetration := {},
    cold_penetration := {},
    lightning_penetration := {},
    chaos_penetration := {},
    life_regen := {},
    mana_regen := {},
    life_leech := {},
    mana_leech := {},
    movement_speed_increased := 0,
    item_rarity_increased := 0,
    item_quantity_increased := 0,
    active_dots := [],
    active_buffs := [],
    active_status_effects := [],
    effects := [],
    weapon_physical_min := 0,
    weapon_physical_max := 0,
    weapon_fire_min := 0,
    weapon_fire_max := 0,
    weapon_cold_min := 0,
    weapon_cold_max := 0,
    weapon_lightning_min := 0,
    weapon_lightning_max := 0,
    weapon_chaos_min := 0,
    weapon_chaos_max := 0,
    weapon_attack_speed := 1,
    weapon_crit_chance := 5,
    status_effect_stats := {} }

/-- StatBlock::new. -/
def new : StatBlock := with_id "entity"

/-- StatBlock::is_alive. -/
def is_alive (b : StatBlock) : Bool := 0 < b.current_life

/-- StatBlock::computed_max_life. -/
def computed_max_life (b : StatBlock) : ℚ := b.max_life.compute

/-- StatBlock::computed_max_mana. -/
def computed_max_mana (b : StatBlock) : ℚ := b.max_mana.compute

/-- StatBlock::resistance, from stat_core/src/stat_block/computed.rs
(physical uses armour, not resistance). -/
def resistance (b : StatBlock) : DamageType → ℚ
  | DamageType.physical => 0
  | DamageType.fire => b.fire_resistance.compute
  | DamageType.cold => b.cold_resistance.compute
  | DamageType.lightning => b.lightning_resistance.compute
  | DamageType.chaos => b.chaos_resistance.compute

/-- StatBlock::penetration, from stat_core/src/stat_block/computed.rs. -/
def penetration (b : StatBlock) : DamageType → ℚ
  | DamageType.physical => 0
  | DamageType.fire => b.fire_penetration.compute
  | DamageType.cold => b.cold_penetration.compute
  | DamageType.lightning => b.lightning_penetration.compute
  | DamageType.chaos => b.chaos_penetration.compute

/-- StatBlock::computed_attack_speed, from computed.rs. -/
def computed_attack_speed (b : StatBlock) : ℚ :=
  b.attack_speed.compute * b.weapon_attack_speed

/-- StatBlock::computed_cast_speed, from computed.rs. -/
def computed_cast_speed (b : StatBlock) : ℚ := b.cast_speed.compute

/-- StatBlock::computed_crit_multiplier, from computed.rs. -/
def computed_crit_multiplier (b : StatBlock) : ℚ :=
  b.critical_multiplier.compute

/-- StatBlock::weapon_damage, from computed.rs. -/
def weapon_damage (b : StatBlock) : DamageType → ℚ × ℚ
  | DamageType.physical => (b.weapon_physical_min, b.weapon_physical_max)
  | DamageType.fire => (b.weapon_fire_min, b.weapon_fire_max)
  | DamageType.cold => (b.weapon_cold_min, b.weapon_cold_max)
  | DamageType.lightning => (b.weapon_lightning_min, b.weapon_lightning_max)
  | DamageType.chaos => (b.weapon_chaos_min, b.weapon_chaos_max)

end StatBlock

/-- StatAccumulator::apply_to, from stat_core/src/stat_block/aggregator.rs:
writes every accumulated contribution into the block. -/
def StatAccumulator.apply_to (a : StatAccumulator) (block : StatBlock) :
    StatBlock :=
  let max_life := a.life_more.foldl StatValue.add_more
    ((block.max_life.add_flat a.life_flat).add_increased a.life_increased)
  let max_mana := a.mana_more.foldl StatValue.add_more
    ((block.max_mana.add_flat a.mana_flat).add_increased a.mana_increased)
  let global_physical_damage := a.physical_damage_more.foldl StatValue.add_more
    ((block.global_physical_damage.add_flat a.physical_damage_flat).add_increased
      a.physical_damage_increased)
  let global_fire_damage := a.fire_damage_more.foldl StatValue.add_more
    ((block.global_fire_damage.add_flat a.fire_damage_flat).add_increased
      (a.fire_damage_increased + a.elemental_damage_increased))
  let global_cold_damage := a.cold_damage_more.foldl StatValue.add_more
    ((block.global_cold_damage.add_flat a.cold_damage_flat).add_increased
      (a.cold_damage_increased + a.elemental_damage_increased))
  let global_lightning_damage := a.lightning_damage_more.foldl StatValue.add_more
    ((block.global_lightning_damage.add_flat a.lightning_damage_flat).add_increased
      (a.lightning_damage_increased + a.elemental_damage_increased))
  let global_chaos_damage := a.chaos_damage_more.foldl StatValue.add_more
    ((block.global_chaos_damage.add_flat a.chaos_damage_flat).add_increased
      a.chaos_damage_increased)
  let weapon_phys :=
    if 0 < a.weapon_physical_min ∨ 0 < a.weapon_physical_max then
      let phys_mult := 1 + a.weapon_physical_increased
      (a.weapon_physical_min * phys_mult, a.weapon_physical_max * phys_mult)
    else (block.weapon_physical_min, block.weapon_physical_max)
  let weapon_elem := a.weapon_elemental_damages.foldl
    (fun (w : ℚ × ℚ × ℚ × ℚ × ℚ × ℚ × ℚ × ℚ) entry =>
      match entry.1 with
      | DamageType.fire => (w.1 + entry.2.1, w.2.1 + entry.2.2, w.2.2)
      | DamageType.cold =>
          (w.1, w.2.1, w.2.2.1 + entry.2.1, w.2.2.2.1 + entry.2.2, w.2.2.2.2)
      | DamageType.lightning =>
          (w.1, w.2.1, w.2.2.1, w.2.2.2.1, w.2.2.2.2.1 + entry.2.1,
           w.2.2.2.2.2.1 + entry.2.2, w.2.2.2.2.2.2)
      | DamageType.chaos =>
          (w.1, w.2.1, w.2.2.1, w.2.2.2.1, w.2.2.2.2.1, w.2.2.2.2.2.1,
           w.2.2.2.2.2.2.1 + entry.2.1, w.2.2.2.2.2.2.2 + entry.2.2)
      | DamageType.physical => w)
    (block.weapon_fire_min, block.weapon_fire_max, block.weapon_cold_min,
     block.weapon_cold_max, block.weapon_lightning_min,
     block.weapon_lightning_max, block.weapon_chaos_min, block.weapon_chaos_max)
  { block with
    max_life := max_life,
    max_mana := max_mana,
    strength := block.strength.add_flat (a.strength_flat + a.all_attributes_flat),
    dexterity := block.dexterity.add_flat (a.dexterity_flat + a.all_attributes_flat),
    intelligence :=
      block.intelligence.add_flat (a.intelligence_flat + a.all_attributes_flat),
    constitution :=
      block.constitution.add_flat (a.constitution_flat + a.all_attributes_flat),
    wisdom := block.wisdom.add_flat (a.wisdom_flat + a.all_attributes_flat),
    charisma := block.charisma.add_flat (a.charisma_flat + a.all_attributes_flat),
    armour := (block.armour.add_flat a.armour_flat).add_increased a.armour_increased,
    evasion := (block.evasion.add_flat a.evasion_flat).add_increased
      a.evasion_increased,
    fire_resistance :=
      block.fire_resistance.add_flat (a.fire_resistance + a.all_resistances),
    cold_resistance :=
      block.cold_resistance.add_flat (a.cold_resistance + a.all_resistances),
    lightning_resistance :=
      block.lightning_resistance.add_flat (a.lightning_resistance + a.all_resistances),
    chaos_resistance := block.chaos_resistance.add_flat a.chaos_resistance,
    global_physical_damage := global_physical_damage,
    global_fire_damage := global_fire_damage,
    global_cold_damage := global_cold_damage,
    global_lightning_damage := global_lightning_damage,
    global_chaos_damage := global_chaos_damage,
    attack_speed := block.attack_speed.add_increased a.attack_speed_increased,
    cast_speed := block.cast_speed.add_increased a.cast_speed_increased,
    critical_chance := (block.critical_chance.add_flat
      a.critical_chance_flat).add_increased a.critical_chance_increased,
    critical_multiplier :=
      block.critical_multiplier.add_flat a.critical_multiplier_flat,
    fire_penetration := block.fire_penetration.add_flat a.fire_penetration,
    cold_penetration := block.cold_penetration.add_flat a.cold_penetration,
    lightning_penetration :=
      block.lightning_penetration.add_flat a.lightning_penetration,
    chaos_penetration := block.chaos_penetration.add_flat a.chaos_penetration,
    life_regen := block.life_regen.add_flat a.life_regen_flat,
    mana_regen := block.mana_regen.add_flat a.mana_regen_flat,
    life_leech := block.life_leech.add_flat a.life_leech_percent,
    mana_leech := block.mana_leech.add_flat a.mana_leech_percent,
    weapon_physical_min := weapon_phys.1,
    weapon_physical_max := weapon_phys.2,
    weapon_attack_speed :=
      if 0 < a.weapon_attack_speed then a.weapon_attack_speed
      else block.weapon_attack_speed,
    weapon_crit_chance :=
      if 0 < a.weapon_crit_chance then a.weapon_crit_chance
      else block.weapon_crit_chance,
    weapon_fire_min := weapon_elem.1,
    weapon_fire_max := weapon_elem.2.1,
    weapon_cold_min := weapon_elem.2.2.1,
    weapon_cold_max := weapon_elem.2.2.2.1,
    weapon_lightning_min := weapon_elem.2.2.2.2.1,
    weapon_lightning_max := weapon_elem.2.2.2.2.2.1,
    weapon_chaos_min := weapon_elem.2.2.2.2.2.2.1,
    weapon_chaos_max := weapon_elem.2.2.2.2.2.2.2,
    accuracy := (block.accuracy.add_flat a.accuracy_flat).add_increased
      a.accuracy_increased,
    movement_speed_increased :=
      block.movement_speed_increased + a.movement_speed_increased,
    item_rarity_increased :=
      block.item_rarity_increased + a.item_rarity_increased,
    item_quantity_increased :=
      block.item_quantity_increased + a.item_quantity_increased,
    status_effect_stats :=
      { poison := a.get_status_stats StatusEffect.poison,
        poison_conversions := a.get_status_conversions StatusEffect.poison,
        bleed := a.get_status_stats StatusEffect.bleed,
        bleed_conversions := a.get_status_conversions StatusEffect.bleed,
        burn := a.get_status_stats StatusEffect.burn,
        burn_conversions := a.get_status_conversions StatusEffect.burn,
        freeze := a.get_status_stats StatusEffect.freeze,
        freeze_conversions := a.get_status_conversions StatusEffect.freeze,
        chill := a.get_status_stats StatusEffect.chill,
        chill_conversions := a.get_status_conversions StatusEffect.chill,
        static_effect := a.get_status_stats StatusEffect.static,
        static_conversions := a.get_status_conversions StatusEffect.static,
        fear := a.get_status_stats StatusEffect.fear,
        fear_conversions := a.get_status_conversions StatusEffect.fear,
        slow := a.get_status_stats StatusEffect.slow,
        slow_conversions := a.get_status_conversions StatusEffect.slow } }

/-- A stat source trait object, from stat_core/src/source/mod.rs: a
priority and a write into the accumulator. -/
structure StatSource where
  priority : ℤ
  apply : StatAccumulator → StatAccumulator

/-- Stable insertion by ascending priority (one step of the stable
sort_by_key used by rebuild_from_sources). -/
def insert_by_priority (s : StatSource) : List StatSource → List StatSource
  | [] => [s]
  | x :: rest =>
      if x.priority ≤ s.priority then x :: insert_by_priority s rest
      else s :: x :: rest

/-- Stable ascending sort by priority, mirroring sort_by_key. -/
def sort_by_priority (sources : List StatSource) : List StatSource :=
  sources.foldl (fun acc s => insert_by_priority s acc) []

/-- StatBlock::rebuild_from_sources, from stat_core/src/stat_block/mod.rs:
keeps id, equipped items and buff sources, resets everything else to the
with_id defaults, applies the priority-sorted sources through an
accumulator, and clamps the current resources to their maxima. -/
def StatBlock.rebuild_from_sources (b : StatBlock) (sources : List StatSource) :
    StatBlock :=
  let base := { StatBlock.with_id b.id with
    equipped_items := b.equipped_items,
    buff_sources := b.buff_sources }
  let sorted_sources := sort_by_priority sources
  let accumulator := sorted_sources.foldl (fun acc s => s.apply acc)
    StatAccumulator.new
  let b2 := accumulator.apply_to base
  { b2 with
    current_life := min b2.current_life b2.max_life.compute,
    current_mana := min b2.current_mana b2.max_mana.compute,
    current_energy_shield := min b2.current_energy_shield b2.max_energy_shield }

/-! Damage packets and combat results, from stat_core/src/damage/packet.rs
and stat_core/src/combat/result.rs. -/

/-- FinalDamage, from stat_core/src/damage/packet.rs. -/
structure FinalDamage where
  damage_type : DamageType
  amount : ℚ
deriving DecidableEq

/-- PendingDoT, from stat_core/src/damage/packet.rs. -/
structure PendingDoT where
  dot_type : String
  damage_per_second : ℚ
  duration : ℚ
deriving DecidableEq

/-- PendingStatusEffect, from stat_core/src/damage/packet.rs. -/
structure PendingStatusEffect where
  effect_type : StatusEffect
  status_damage : ℚ
  duration : ℚ
  magnitude : ℚ
  dot_dps : ℚ
deriving DecidableEq

/-- PendingStatusEffect::calculate_apply_chance. -/
def PendingStatusEffect.calculate_apply_chance (p : PendingStatusEffect)
    (target_max_health : ℚ) : ℚ :=
  if target_max_health ≤ 0 then 0
  else rclamp (p.status_damage / target_max_health) 0 1

/-- DamagePacket, from stat_core/src/damage/packet.rs, with the Default
values of the source. -/
structure DamagePacket where
  source_id : String := ""
  skill_id : String := ""
  damages : List FinalDamage := []
  is_critical : Bool := false
  crit_multiplier : ℚ := 3/2
  fire_pen : ℚ := 0
  cold_pen : ℚ := 0
  lightning_pen : ℚ := 0
  chaos_pen : ℚ := 0
  dots_to_apply : List PendingDoT := []
  status_effects_to_apply : List PendingStatusEffect := []
  accuracy : ℚ := 1000
  hit_count : ℕ := 1
  can_leech : Bool := true
  can_apply_on_hit : Bool := true
deriving DecidableEq

namespace DamagePacket

/-- DamagePacket::new. -/
def new (source_id skill_id : String) : DamagePacket :=
  { source_id := source_id, skill_id := skill_id }

/-- DamagePacket::total_damage. -/
def total_damage (p : DamagePacket) : ℚ :=
  (p.damages.map (fun d => d.amount)).sum

/-- DamagePacket::penetration. -/
def penetration (p : DamagePacket) : DamageType → ℚ
  | DamageType.physical => 0
  | DamageType.fire => p.fire_pen
  | DamageType.cold => p.cold_pen
  | DamageType.lightning => p.lightning_pen
  | DamageType.chaos => p.chaos_pen

end DamagePacket

/-- DamageTaken, from stat_core/src/combat/result.rs. -/
structure DamageTaken where
  damage_type : DamageType
  raw_amount : ℚ
  mitigated_amount : ℚ
  final_amount : ℚ
deriving DecidableEq

/-- CombatResult, from stat_core/src/combat/result.rs, with the Default
values of the source. -/
structure CombatResult where
  damage_taken : List DamageTaken := []
  total_damage : ℚ := 0
  damage_blocked_by_es : ℚ := 0
  damage_reduced_by_armour : ℚ := 0
  damage_reduced_by_resists : ℚ := 0
  damage_prevented_by_evasion : ℚ := 0
  effects_applied : List Effect := []
  es_before : ℚ := 0
  es_after : ℚ := 0
  life_before : ℚ := 0
  life_after : ℚ := 0
  is_killing_blow : Bool := false
  triggered_evasion_cap : Bool := false
deriving DecidableEq

/-- An explicit random-number source: a stream of draws in [0, 1).  Every
source function that rolls takes it as a parameter and returns the advanced
stream; an exhausted stream yields 0. -/
structure Rng where
  draws : List ℚ
deriving DecidableEq

/-- One draw of rng.gen::<f64>(). -/
def Rng.gen (r : Rng) : ℚ × Rng :=
  match r.draws with
  | [] => (0, ⟨[]⟩)
  | v :: rest => (v, ⟨rest⟩)

/-- Effect::status. -/
def Effect.status (e : Effect) : Option StatusEffect :=
  match e.effect_type with
  | EffectType.ailment s _ _ _ _ _ _ => some s
  | _ => none

/-- Damaging-ailment dps field of an effect (0 when not an ailment). -/
def Effect.dot_dps (e : Effect) : ℚ :=
  match e.effect_type with
  | EffectType.ailment _ _ d _ _ _ _ => d
  | _ => 0

/-- Magnitude field of an ailment effect (0 when not an ailment). -/
def Effect.magnitude (e : Effect) : ℚ :=
  match e.effect_type with
  | EffectType.ailment _ m _ _ _ _ _ => m
  | _ => 0

/-- Stacking field of an ailment effect. -/
def Effect.ailment_stacking (e : Effect) : Option AilmentStacking :=
  match e.effect_type with
  | EffectType.ailment _ _ _ _ _ st _ => some st
  | _ => none

/-- Replace the effectiveness of an ailment effect. -/
def Effect.set_effectiveness (e : Effect) (v : ℚ) : Effect :=
  match e.effect_type with
  | EffectType.ailment s m d r t st _ =>
      { e with effect_type := EffectType.ailment s m d r t st v }
  | _ => e

/-- Refresh an ailment effect in place to a new duration and dps (used by
the spec-modelled stacking below). -/
def Effect.set_duration_and_dps (e : Effect) (dur dps : ℚ) : Effect :=
  match e.effect_type with
  | EffectType.ailment s m _ r t st v =>
      { e with effect_type := EffectType.ailment s m dps r t st v,
               duration_remaining := dur, total_duration := dur }
  | _ => { e with duration_remaining := dur, total_duration := dur }

/-- Rewrite the element at an index. -/
def modify_at {α : Type} (f : α → α) : List α → ℕ → List α
  | [], _ => []
  | x :: rest, 0 => f x :: rest
  | x :: rest, n + 1 => x :: modify_at f rest n

/-- Index of the matching instance with minimal dot_dps (first one on
ties), starting the count at i. -/
def min_dps_idx_aux (status : StatusEffect) :
    List Effect → ℕ → Option (ℕ × ℚ)
  | [], _ => none
  | x :: rest, i =>
      let tail := min_dps_idx_aux status rest (i + 1)
      if x.status = some status then
        match tail with
        | none => some (i, x.dot_dps)
        | some (j, d) =>
            if x.dot_dps ≤ d then some (i, x.dot_dps) else some (j, d)
      else tail

/-- Modelled from the spec: the stacking step of StatBlock::add_effect.
StatBlock::add_effect belongs to the repository's unified-effects variant
of StatBlock, which is not among the sources (resolve_damage_with_rng in
combat/resolution.rs calls it, but stat_block/mod.rs does not define it).
Spec section 4.5: adding an ailment respects the kind's stacking
discipline — StrongestOnly replaces the current instance only if the new
dot_dps (for damaging ailments) or magnitude (otherwise) is at least the
current one's, refreshing the duration to the new total; Unlimited always
appends; Limited appends below max_stacks with effectiveness 1 when the
list was empty and stack_effectiveness otherwise, and at cap refreshes the
weakest existing instance to the new duration and dot_dps.  Only the
effects list is involved. -/
def add_effect_list (effects : List Effect) (e : Effect) : List Effect :=
  match e.effect_type with
  | EffectType.ailment status _ _ _ _ stacking _ =>
      match stacking with
      | AilmentStacking.strongestOnly =>
          if effects.any (fun x => x.status = some status) then
            update_first (fun x => x.status = some status)
              (fun x =>
                if (if 0 < e.dot_dps then x.dot_dps ≤ e.dot_dps
                    else x.magnitude ≤ e.magnitude) then e else x)
              effects
          else effects ++ [e]
      | AilmentStacking.unlimited => effects ++ [e]
      | AilmentStacking.limited stack_effectiveness =>
          let count := (effects.filter (fun x => x.status = some status)).length
          if count < e.max_stacks then
            effects ++
              [if 0 < count then e.set_effectiveness stack_effectiveness else e]
          else
            match min_dps_idx_aux status effects 0 with
            | some (i, _) =>
                modify_at
                  (fun x => x.set_duration_and_dps e.total_duration e.dot_dps)
                  effects i
            | none => effects
  | _ => effects ++ [e]

/-- Modelled from the spec: StatBlock::add_effect of the unified-effects
StatBlock variant (see add_effect_list); it changes only the effects
list. -/
def StatBlock.add_effect (b : StatBlock) (e : Effect) : StatBlock :=
  { b with effects := add_effect_list b.effects e }

/-- create_effect_from_status, from stat_core/src/combat/resolution.rs:
builds the kind's canonical effect and overrides its duration. -/
def create_effect_from_status (status : StatusEffect)
    (duration magnitude dot_dps : ℚ) (source_id : String) : Effect :=
  let base :=
    match status with
    | StatusEffect.poison => Effect.poison dot_dps source_id
    | StatusEffect.bleed => Effect.bleed dot_dps source_id
    | StatusEffect.burn => Effect.burn dot_dps source_id
    | StatusEffect.freeze => Effect.freeze magnitude source_id
    | StatusEffect.chill => Effect.chill magnitude source_id
    | StatusEffect.static => Effect.shock magnitude source_id
    | StatusEffect.fear => Effect.fear magnitude source_id
    | StatusEffect.slow => Effect.slow magnitude source_id
  { base with duration_remaining := duration, total_duration := duration }

/-- Step 5 of resolve_damage_with_rng: roll each pending status effect
against status_damage / max health and add the successful ones through the
stacking discipline, collecting them in application order. -/
def apply_pending_statuses (b : StatBlock)
    (pend : List PendingStatusEffect) (target_max_health : ℚ)
    (source_id : String) (rng : Rng) : StatBlock × List Effect × Rng :=
  match pend with
  | [] => (b, [], rng)
  | p :: rest =>
      let apply_chance := p.calculate_apply_chance target_max_health
      let draw := rng.gen
      if draw.1 < apply_chance then
        let e := create_effect_from_status p.effect_type p.duration p.magnitude
          p.dot_dps source_id
        let out := apply_pending_statuses (b.add_effect e) rest
          target_max_health source_id draw.2
        (out.1, e :: out.2.1, out.2.2)
      else
        apply_pending_statuses b rest target_max_health source_id draw.2

/-- Step 4 of resolve_damage_with_rng (stat_core/src/combat/resolution.rs):
the energy shield absorbs the total first, the remainder subtracts from
life, and life at or below zero clamps to zero and marks a killing blow.
Returns (energy shield after, life after, damage blocked by ES, killing
blow flag). -/
def absorb_damage (es life total : ℚ) : ℚ × ℚ × ℚ × Bool :=
  let es_step :=
    if 0 < es ∧ 0 < total then
      let es_absorbed := min total es
      (es - es_absorbed, total - es_absorbed, es_absorbed)
    else (es, total, 0)
  let life1 := if 0 < es_step.2.1 then life - es_step.2.1 else life
  if life1 ≤ 0 then (es_step.1, 0, es_step.2.2, true)
  else (es_step.1, life1, es_step.2.2, false)

/-- resolve_damage_with_rng, from stat_core/src/combat/resolution.rs:
per-type resistance mitigation (physical passes raw), armour on the
physical entry, the global evasion cap, ES-then-life absorption with the
death clamp (absorb_damage), and the probabilistic status applications. -/
def resolve_damage_with_rng (defender : StatBlock) (packet : DamagePacket)
    (rng : Rng) : StatBlock × CombatResult × Rng :=
  let es_before := defender.current_energy_shield
  let life_before := defender.current_life
  -- Step 1: resistance mitigation per damage entry
  let step1 := packet.damages.foldl
    (fun (st : List DamageTaken × ℚ) final_damage =>
      let raw := final_damage.amount
      let pen := packet.penetration final_damage.damage_type
      let resist := defender.resistance final_damage.damage_type
      let after_resist :=
        if final_damage.damage_type = DamageType.physical then raw
        else calculate_resistance_mitigation raw resist pen
      let mitigated := raw - after_resist
      let reduced := if 0 < mitigated then st.2 + mitigated else st.2
      (st.1 ++ [{ damage_type := final_damage.damage_type, raw_amount := raw,
                  mitigated_amount := max mitigated 0,
                  final_amount := after_resist }],
       reduced))
    ([], 0)
  let taken1 := step1.1
  -- Step 2: armour on the (first) physical entry
  let armour_step :=
    match taken1.find? (fun d => d.damage_type == DamageType.physical) with
    | some phys =>
        if 0 < phys.final_amount then
          let armour := defender.armour.compute
          let after_armour := calculate_armour_reduction armour phys.final_amount
          let armour_reduced := phys.final_amount - after_armour
          (update_first (fun (d : DamageTaken) => d.damage_type == DamageType.physical)
            (fun (d : DamageTaken) => { d with
              mitigated_amount := d.mitigated_amount + armour_reduced,
              final_amount := after_armour }) taken1,
           armour_reduced)
        else (taken1, 0)
    | none => (taken1, 0)
  let taken2 := armour_step.1
  let total_before_evasion := (taken2.map (fun d => d.final_amount)).sum
  -- Step 3: global evasion cap
  let evasion := defender.evasion.compute
  let ev := apply_evasion_cap packet.accuracy evasion total_before_evasion
  let evasion_step :=
    if 0 < ev.2 then
      let taken3 :=
        if 0 < total_before_evasion then
          let ratio := ev.1 / total_before_evasion
          taken2.map (fun d => { d with
            mitigated_amount := d.mitigated_amount + d.final_amount * (1 - ratio),
            final_amount := d.final_amount * ratio })
        else taken2
      (taken3, true, ev.2)
    else (taken2, false, 0)
  let taken3 := evasion_step.1
  let total_damage := (taken3.map (fun d => d.final_amount)).sum
  -- Step 4: ES absorbs first, remainder hits life, death clamps to 0
  let absorbed := absorb_damage es_before life_before total_damage
  let defender_mid := { defender with
    current_energy_shield := absorbed.1, current_life := absorbed.2.1 }
  -- Step 5: status applications against the updated defender
  let target_max_health := defender_mid.computed_max_life
  let statuses := apply_pending_statuses defender_mid
    packet.status_effects_to_apply target_max_health packet.source_id rng
  let result : CombatResult :=
    { damage_taken := taken3,
      total_damage := total_damage,
      damage_blocked_by_es := absorbed.2.2.1,
      damage_reduced_by_armour := armour_step.2,
      damage_reduced_by_resists := step1.2,
      damage_prevented_by_evasion := evasion_step.2.2,
      effects_applied := statuses.2.1,
      es_before := es_before,
      es_after := absorbed.1,
      life_before := life_before,
      life_after := absorbed.2.1,
      is_killing_blow := absorbed.2.2.2,
      triggered_evasion_cap := evasion_step.2.1 }
  (statuses.1, result, statuses.2.2)

/-! Skill definitions and the DPS estimator, from
stat_core/src/damage/generator.rs and stat_core/src/damage/calculation.rs. -/

/-- Skill tags, from stat_core/src/types.rs. -/
inductive SkillTag where
  | attack
  | spell
  | physical
  | fire
  | cold
  | lightning
  | chaos
  | elemental
  | melee
  | ranged
  | projectile
  | aoe
deriving DecidableEq

/-- BaseDamage, from stat_core/src/damage/generator.rs. -/
structure BaseDamage where
  damage_type : DamageType
  min : ℚ
  max : ℚ
deriving DecidableEq

/-- SkillStatusConversions, from stat_core/src/damage/generator.rs. -/
structure SkillStatusConversions where
  physical_to_poison : ℚ := 0
  chaos_to_poison : ℚ := 0
  physical_to_bleed : ℚ := 0
  fire_to_burn : ℚ := 0
  cold_to_freeze : ℚ := 0
  cold_to_chill : ℚ := 0
  lightning_to_static : ℚ := 0
  chaos_to_fear : ℚ := 0
  physical_to_slow : ℚ := 0
  cold_to_slow : ℚ := 0
deriving DecidableEq

/-- SkillStatusConversions::get_conversion. -/
def SkillStatusConversions.get_conversion (c : SkillStatusConversions) :
    DamageType → StatusEffect → ℚ
  | DamageType.physical, StatusEffect.poison => c.physical_to_poison
  | DamageType.chaos, StatusEffect.poison => c.chaos_to_poison
  | DamageType.physical, StatusEffect.bleed => c.physical_to_bleed
  | DamageType.fire, StatusEffect.burn => c.fire_to_burn
  | DamageType.cold, StatusEffect.freeze => c.cold_to_freeze
  | DamageType.cold, StatusEffect.chill => c.cold_to_chill
  | DamageType.lightning, StatusEffect.static => c.lightning_to_static
  | DamageType.chaos, StatusEffect.fear => c.chaos_to_fear
  | DamageType.physical, StatusEffect.slow => c.physical_to_slow
  | DamageType.cold, StatusEffect.slow => c.cold_to_slow
  | _, _ => 0

/-- DamageConversions, from stat_core/src/damage/generator.rs. -/
structure DamageConversions where
  physical_to_fire : ℚ := 0
  physical_to_cold : ℚ := 0
  physical_to_lightning : ℚ := 0
  physical_to_chaos : ℚ := 0
  lightning_to_fire : ℚ := 0
  lightning_to_cold : ℚ := 0
  cold_to_fire : ℚ := 0
  fire_to_chaos : ℚ := 0
deriving DecidableEq

/-- DamageConversions::has_conversions. -/
def DamageConversions.has_conversions (c : DamageConversions) : Bool :=
  0 < c.physical_to_fire || 0 < c.physical_to_cold
    || 0 < c.physical_to_lightning || 0 < c.physical_to_chaos
    || 0 < c.lightning_to_fire || 0 < c.lightning_to_cold
    || 0 < c.cold_to_fire || 0 < c.fire_to_chaos

/-- A damage map; embeds HashMap<DamageType, f64> with absent keys read as
zero. -/
structure DMap where
  physical : ℚ := 0
  fire : ℚ := 0
  cold : ℚ := 0
  lightning : ℚ := 0
  chaos : ℚ := 0
deriving DecidableEq

/-- Read an entry of the damage map. -/
def DMap.get (m : DMap) : DamageType → ℚ
  | DamageType.physical => m.physical
  | DamageType.fire => m.fire
  | DamageType.cold => m.cold
  | DamageType.lightning => m.lightning
  | DamageType.chaos => m.chaos

/-- entry(dt).or_insert(0.0) += amt on the damage map. -/
def DMap.add (m : DMap) (dt : DamageType) (amt : ℚ) : DMap :=
  match dt with
  | DamageType.physical => { m with physical := m.physical + amt }
  | DamageType.fire => { m with fire := m.fire + amt }
  | DamageType.cold => { m with cold := m.cold + amt }
  | DamageType.lightning => { m with lightning := m.lightning + amt }
  | DamageType.chaos => { m with chaos := m.chaos + amt }

/-- DamageConversions::apply, from stat_core/src/damage/generator.rs:
conversion order Physical, then Lightning, then Cold, then Fire.  The
source's final removal of non-positive entries is subsumed by the
downstream iteration skipping non-positive amounts. -/
def DamageConversions.apply (c : DamageConversions) (damages : DMap) : DMap :=
  let result := damages
  let result :=
    let phys := result.physical
    let to_fire := phys * c.physical_to_fire
    let to_cold := phys * c.physical_to_cold
    let to_lightning := phys * c.physical_to_lightning
    let to_chaos := phys * c.physical_to_chaos
    let total_converted := min (to_fire + to_cold + to_lightning + to_chaos) phys
    if 0 < total_converted then
      { result with
        physical := result.physical - total_converted,
        fire := result.fire + to_fire,
        cold := result.cold + to_cold,
        lightning := result.lightning + to_lightning,
        chaos := result.chaos + to_chaos }
    else result
  let result :=
    let lightning := result.lightning
    let to_fire := lightning * c.lightning_to_fire
    let to_cold := lightning * c.lightning_to_cold
    let total_converted := min (to_fire + to_cold) lightning
    if 0 < total_converted then
      { result with
        lightning := result.lightning - total_converted,
        fire := result.fire + to_fire,
        cold := result.cold + to_cold }
    else result
  let result :=
    let cold := result.cold
    let to_fire := cold * c.cold_to_fire
    if 0 < to_fire then
      { result with cold := result.cold - to_fire, fire := result.fire + to_fire }
    else result
  let result :=
    let fire := result.fire
    let to_chaos := fire * c.fire_to_chaos
    if 0 < to_chaos then
      { result with fire := result.fire - to_chaos, chaos := result.chaos + to_chaos }
    else result
  result

/-- DamageTypeEffectiveness, from stat_core/src/damage/generator.rs. -/
structure DamageTypeEffectiveness where
  physical : ℚ := 1
  fire : ℚ := 1
  cold : ℚ := 1
  lightning : ℚ := 1
  chaos : ℚ := 1
deriving DecidableEq

/-- DamageTypeEffectiveness::get. -/
def DamageTypeEffectiveness.get (e : DamageTypeEffectiveness) :
    DamageType → ℚ
  | DamageType.physical => e.physical
  | DamageType.fire => e.fire
  | DamageType.cold => e.cold
  | DamageType.lightning => e.lightning
  | DamageType.chaos => e.chaos

/-- DamagePacketGenerator (skill template), from
stat_core/src/damage/generator.rs, with its Default values. -/
structure DamagePacketGenerator where
  id : String := "default"
  name : String := "Default Attack"
  base_damages : List BaseDamage := []
  weapon_effectiveness : ℚ := 1
  damage_effectiveness : ℚ := 1
  attack_speed_modifier : ℚ := 1
  base_crit_chance : ℚ := 0
  crit_multiplier_bonus : ℚ := 0
  tags : List SkillTag := [SkillTag.attack]
  status_conversions : SkillStatusConversions := {}
  damage_conversions : DamageConversions := {}
  type_effectiveness : DamageTypeEffectiveness := {}
  hits_per_attack : ℕ := 1
  can_chain : Bool := false
  chain_count : ℕ := 0
  pierce_chance : ℚ := 0
deriving DecidableEq

/-- DamagePacketGenerator::is_attack. -/
def DamagePacketGenerator.is_attack (g : DamagePacketGenerator) : Bool :=
  g.tags.contains SkillTag.attack

/-- DamagePacketGenerator::is_spell. -/
def DamagePacketGenerator.is_spell (g : DamagePacketGenerator) : Bool :=
  g.tags.contains SkillTag.spell

/-- calculate_crit_chance, from stat_core/src/damage/calculation.rs. -/
def calculate_crit_chance (attacker : StatBlock)
    (skill : DamagePacketGenerator) : ℚ :=
  let base_crit :=
    if skill.is_attack then skill.base_crit_chance + attacker.weapon_crit_chance
    else skill.base_crit_chance
  let flat_crit := base_crit + attacker.critical_chance.flat
  let increased_mult := attacker.critical_chance.total_increased_multiplier
  let more_mult := attacker.critical_chance.total_more_multiplier
  rclamp (flat_crit * increased_mult * more_mult) 0 100

/-- calculate_combined_status_damage, from
stat_core/src/damage/calculation.rs: skill and player conversions add. -/
def calculate_combined_status_damage (status : StatusEffect)
    (damages : List (DamageType × ℚ))
    (skill_conversions : SkillStatusConversions)
    (player_stats : StatusEffectData) : ℚ :=
  let player_conversions := player_stats.get_conversions status
  damages.foldl
    (fun total entry =>
      let skill_conv := skill_conversions.get_conversion entry.1 status
      let player_conv := player_conversions.from_damage_type entry.1
      total + entry.2 * (skill_conv + player_conv))
    0

/-- calculate_status_dot_dps, from stat_core/src/damage/calculation.rs. -/
def calculate_status_dot_dps (base_dot_percent status_damage : ℚ)
    (stats : StatusEffectStats) : ℚ :=
  if base_dot_percent = 0 then 0
  else base_dot_percent * status_damage * (1 + stats.dot_increased)

/-- The five damage types in the fixed order the source iterates them. -/
def damage_type_order : List DamageType :=
  [DamageType.physical, DamageType.fire, DamageType.cold,
   DamageType.lightning, DamageType.chaos]

/-- calculate_average_damage_by_type, from
stat_core/src/damage/calculation.rs.  The source iterates the converted
HashMap in its internal order; here the canonical type order is used — the
estimator only consumes order-insensitive aggregates of the result. -/
def calculate_average_damage_by_type (attacker : StatBlock)
    (skill : DamagePacketGenerator) : List (DamageType × ℚ) :=
  let base1 := skill.base_damages.foldl
    (fun m bd => m.add bd.damage_type ((bd.min + bd.max) / 2)) ({} : DMap)
  let base2 :=
    if skill.is_attack ∧ 0 < skill.weapon_effectiveness then
      damage_type_order.foldl
        (fun m dt =>
          let w := attacker.weapon_damage dt
          if 0 < w.2 then m.add dt ((w.1 + w.2) / 2 * skill.weapon_effectiveness)
          else m)
        base1
    else base1
  let converted :=
    if skill.damage_conversions.has_conversions then
      skill.damage_conversions.apply base2
    else base2
  damage_type_order.foldl
    (fun result dt =>
      let base_amount := converted.get dt
      if base_amount ≤ 0 then result
      else
        let damage_stat :=
          match dt with
          | DamageType.physical => attacker.global_physical_damage
          | DamageType.fire => attacker.global_fire_damage
          | DamageType.cold => attacker.global_cold_damage
          | DamageType.lightning => attacker.global_lightning_damage
          | DamageType.chaos => attacker.global_chaos_damage
        let scaled := base_amount * damage_stat.total_increased_multiplier
          * damage_stat.total_more_multiplier * skill.damage_effectiveness
          * skill.type_effectiveness.get dt
        if 0 < scaled then result ++ [(dt, scaled)] else result)
    []

/-- calculate_skill_dps, from stat_core/src/damage/calculation.rs: average
damage, the expected crit factor, attack or cast speed, hits per attack,
and the damaging-ailment DoT contribution.  The source takes no RNG
parameter and performs no draws. -/
def calculate_skill_dps (attacker : StatBlock)
    (skill : DamagePacketGenerator) : ℚ :=
  let avg_damages := calculate_average_damage_by_type attacker skill
  let total_avg_damage := (avg_damages.map (fun e => e.2)).sum
  let crit_chance := calculate_crit_chance attacker skill / 100
  let crit_mult := attacker.computed_crit_multiplier + skill.crit_multiplier_bonus
  let crit_dps_mult := 1 + (crit_mult - 1) * crit_chance
  let speed :=
    if skill.is_attack then
      attacker.computed_attack_speed * skill.attack_speed_modifier
    else attacker.computed_cast_speed * skill.attack_speed_modifier
  let hit_dps := total_avg_damage * crit_dps_mult * speed
    * (skill.hits_per_attack : ℚ)
  let dot_dps :=
    [StatusEffect.poison, StatusEffect.bleed, StatusEffect.burn].foldl
      (fun acc status =>
        let status_damage := calculate_combined_status_damage status
          avg_damages skill.status_conversions attacker.status_effect_stats
        if 0 < status_damage then
          let stats := attacker.status_effect_stats.get_stats status
          let base_dot_percent := Effect.base_dot_percent_for status
          let status_dot_dps := calculate_status_dot_dps base_dot_percent
            status_damage stats
          acc + status_dot_dps * speed
        else acc)
      0
  hit_dps + dot_dps

/-- calculate_skill_dps in state-threading form against an ambient RNG:
the source function has no rng parameter and performs no draws, so the
translation passes the stream through untouched and its value part is the
pure calculate_skill_dps. -/
def calculate_skill_dps_run (attacker : StatBlock)
    (skill : DamagePacketGenerator) (rng : Rng) : ℚ × Rng :=
  (calculate_skill_dps attacker skill, rng)

/-- Concrete skill for the C9 evaluation: 100-100 physical base damage and
no weapon contribution. -/
def c9_skill : DamagePacketGenerator :=
  { base_damages := [⟨DamageType.physical, 100, 100⟩], weapon_effectiveness := 0 }

/-- Concrete defender for the C3 witness: 100 life, 50 energy shield. -/
def c3_defender : StatBlock :=
  { StatBlock.new with
      current_life := 100, current_energy_shield := 50, max_energy_shield := 50 }

/-- Concrete packet for the C3 witness: 75 fire damage. -/
def c3_packet : DamagePacket :=
  { DamagePacket.new "a" "s" with damages := [⟨DamageType.fire, 75⟩] }

/-- Concrete packet for the C10 witness: 50 fire damage plus a negative
physical entry. -/
def c10_packet : DamagePacket :=
  { DamagePacket.new "a" "s" with
      damages := [⟨DamageType.fire, 50⟩, ⟨DamageType.physical, -10⟩] }

/-! Theorems. -/

theorem rclamp_le_hi (x lo hi : ℚ) : rclamp x lo hi ≤ hi := min_le_right _ _

theorem effective_resistance_eq_amended (r p : ℚ) :
    calculate_effective_resistance r p = amended_effective_resistance r p := by
  have hmm : MIN_RESISTANCE < MAX_RESISTANCE := by
    norm_num [MIN_RESISTANCE, MAX_RESISTANCE]
  simp only [calculate_effective_resistance, amended_effective_resistance]
  rcases le_or_lt MAX_RESISTANCE r with h | h
  · have hcl : rclamp r MIN_RESISTANCE MAX_RESISTANCE = MAX_RESISTANCE := by
      unfold rclamp
      rw [max_eq_left (le_trans hmm.le h), min_eq_right h]
    rw [hcl, if_pos le_rfl, if_pos h]
    congr 1
    unfold PENETRATION_VS_CAPPED
    ring
  · have hcl : rclamp r MIN_RESISTANCE MAX_RESISTANCE < MAX_RESISTANCE := by
      unfold rclamp
      rcases le_or_lt r MIN_RESISTANCE with h2 | h2
      · rw [max_eq_right h2]
        exact lt_of_le_of_lt (min_le_left _ _) hmm
      · rw [max_eq_left h2.le]
        exact lt_of_le_of_lt (min_le_left _ _) h
    rw [if_neg (not_le.mpr hcl), if_neg (not_le.mpr h)]

/-- C1: StatValue::compute is (base + flat) · (1 + increased) · Π(1 + more);
increased bonuses added through add_increased sum additively inside the single
(1 + increased) factor, while each more entry pushed through add_more
multiplies independently, so adding 20% more and 30% more scales the computed
value by exactly 1.2 · 1.3 = 1.56 (not 1.5). -/
theorem statValue_compute_compose_law (v : StatValue) :
    v.compute
        = (v.base + v.flat) * (1 + v.increased) * (v.more.map (fun m => 1 + m)).prod
      ∧ ((v.add_more (1/5)).add_more (3/10)).compute = v.compute * (39/25)
      ∧ ((v.add_increased (1/5)).add_increased (3/10)).compute
        = (v.base + v.flat) * (1 + (v.increased + 1/2))
            * (v.more.map (fun m => 1 + m)).prod := by
  refine ⟨rfl, ?_, ?_⟩
  · simp only [StatValue.compute, StatValue.add_more, List.map_append,
      List.prod_append, List.map_cons, List.map_nil, List.prod_cons,
      List.prod_nil]
    ring
  · simp only [StatValue.compute, StatValue.add_increased]
    ring

/-- C2 counterexample: at damage 100, resistance 100 (capped) and
penetration 700, the code clamps the effective resistance to
MIN_RESISTANCE = -200 and returns 300 damage, while the claim's formula
MAX_RESIST - 0.5·pen gives effective -250 and output damage 350. -/
theorem resistance_capped_pen_counterexample :
    calculate_resistance_mitigation 100 100 700 = 300
      ∧ claimed_effective_resistance 100 700 = -250
      ∧ (100 : ℚ) * (1 - claimed_effective_resistance 100 700 / 100) = 350 := by
  refine ⟨?_, ?_, ?_⟩ <;> norm_num [calculate_resistance_mitigation,
    calculate_effective_resistance, claimed_effective_resistance, rclamp,
    MAX_RESISTANCE, MIN_RESISTANCE, PENETRATION_VS_CAPPED]

/-- C2 amended: resistance mitigation computes effective resistance by
clamping the input resistance to [MIN_RESIST, MAX_RESIST], taking
MAX_RESIST - 0.5·pen when the clamped resistance is at the cap and
clamped_resistance - pen otherwise, and clamping the branch result to
[MIN_RESIST, MAX_RESIST] again; the output damage is d·(1 - effective/100)
floored at 0.  Concretely, 100 damage against resistance 100 with
penetration 30 yields effective resistance 85 and 15 damage. -/
theorem resistance_mitigation_amended (d r p : ℚ) :
    calculate_resistance_mitigation d r p
        = max (d * (1 - amended_effective_resistance r p / 100)) 0
      ∧ amended_effective_resistance 100 30 = 85
      ∧ calculate_resistance_mitigation 100 100 30 = 15 := by
  refine ⟨?_, ?_, ?_⟩
  · unfold calculate_resistance_mitigation
    rw [effective_resistance_eq_amended]
    rcases le_or_lt d 0 with hd | hd
    · rw [if_pos hd]
      have heff : amended_effective_resistance r p ≤ 100 := by
        unfold amended_effective_resistance
        split
        · exact rclamp_le_hi _ _ _
        · exact rclamp_le_hi _ _ _
      have hmult : 0 ≤ 1 - amended_effective_resistance r p / 100 := by linarith
      have : d * (1 - amended_effective_resistance r p / 100) ≤ 0 :=
        mul_nonpos_of_nonpos_of_nonneg hd hmult
      exact (max_eq_right this).symm
    · rw [if_neg (not_le.mpr hd)]
  · norm_num [amended_effective_resistance, rclamp, MAX_RESISTANCE,
      MIN_RESISTANCE, PENETRATION_VS_CAPPED]
  · norm_num [calculate_resistance_mitigation, calculate_effective_resistance,
      rclamp, MAX_RESISTANCE, MIN_RESISTANCE, PENETRATION_VS_CAPPED]

theorem update_first_length {α : Type} (p : α → Bool) (f : α → α) :
    ∀ l : List α, (update_first p f l).length = l.length := by
  intro l
  induction l with
  | nil => rfl
  | cons x rest ih =>
      simp only [update_first]
      split
      · simp
      · simp [ih]

theorem update_first_get_eq {α : Type} (p : α → Bool) (f : α → α) :
    ∀ (l : List α) (i : ℕ), find_first_idx p l = some i →
      (update_first p f l)[i]? = (l[i]?).map f := by
  intro l
  induction l with
  | nil => intro i h; simp [find_first_idx] at h
  | cons x rest ih =>
      intro i h
      simp only [find_first_idx] at h
      simp only [update_first]
      by_cases hp : p x
      · rw [if_pos hp] at h
        obtain rfl : (0 : ℕ) = i := Option.some_injective _ h
        rw [if_pos hp]
        simp
      · rw [if_neg hp] at h
        rw [if_neg hp]
        obtain ⟨i', hi', rfl⟩ := Option.map_eq_some'.mp h
        simpa using ih i' hi'

theorem update_first_get_ne {α : Type} (p : α → Bool) (f : α → α) :
    ∀ (l : List α) (i : ℕ), find_first_idx p l = some i →
      ∀ j, j ≠ i → (update_first p f l)[j]? = l[j]? := by
  intro l
  induction l with
  | nil => intro i h; simp [find_first_idx] at h
  | cons x rest ih =>
      intro i h j hj
      simp only [find_first_idx] at h
      simp only [update_first]
      by_cases hp : p x
      · rw [if_pos hp] at h
        obtain rfl : (0 : ℕ) = i := Option.some_injective _ h
        rw [if_pos hp]
        match j, hj with
        | j + 1, _ => simp
      · rw [if_neg hp] at h
        rw [if_neg hp]
        obtain ⟨i', hi', rfl⟩ := Option.map_eq_some'.mp h
        match j, hj with
        | 0, _ => simp
        | j + 1, hj =>
            have : j ≠ i' := by omega
            simpa using ih i' hi' j this

theorem recalc_strongest_aux_map {β : Type} (g : ActiveDoT → β)
    (hg : ∀ (d : ActiveDoT) (b : Bool), g { d with is_strongest := b } = g d)
    (all : List ActiveDoT) :
    ∀ (l : List ActiveDoT) (seen : List String),
      (recalc_strongest_aux all l seen).map g = l.map g := by
  intro l
  induction l with
  | nil => intro seen; rfl
  | cons d rest ih =>
      intro seen
      simp only [recalc_strongest_aux]
      split
      · simp [hg, ih]
      · simp [hg, ih]

theorem recalculate_strongest_map {β : Type} (g : ActiveDoT → β)
    (hg : ∀ (d : ActiveDoT) (b : Bool), g { d with is_strongest := b } = g d)
    (l : List ActiveDoT) : (recalculate_strongest l).map g = l.map g :=
  recalc_strongest_aux_map g hg l l []

theorem recalculate_strongest_get {β : Type} (g : ActiveDoT → β)
    (hg : ∀ (d : ActiveDoT) (b : Bool), g { d with is_strongest := b } = g d)
    (l : List ActiveDoT) (j : ℕ) :
    ((recalculate_strongest l)[j]?).map g = (l[j]?).map g := by
  have h := congrArg (fun t => t[j]?) (recalculate_strongest_map g hg l)
  simpa [List.getElem?_map] using h

theorem activeDoT_refresh_fields (d : ActiveDoT) (dur dpt : ℚ) :
    (d.refresh dur dpt).damage_per_tick
        = (if d.damage_per_tick < dpt then dpt else d.damage_per_tick)
      ∧ (d.refresh dur dpt).duration_remaining = dur := by
  unfold ActiveDoT.refresh
  split <;> exact ⟨rfl, rfl⟩

/-- C5 amended: when a Limited-stacking ailment kind is at max_stacks,
apply_dot refreshes the first existing instance of that kind that is not
flagged strongest (the oldest such instance in list order), setting its
duration to the new instance's total duration and its per-tick damage to
the larger of the old and new values; every other instance keeps its
per-tick damage and remaining duration.  The weakest instance is not
singled out. -/
theorem apply_dot_at_cap_refreshes_first_non_strongest
    (dots : List ActiveDoT) (new_dot : ActiveDoT) (config : DotConfig)
    (m : ℕ) (eff : ℚ) (i : ℕ) (d : ActiveDoT)
    (hstack : config.stacking = DotStacking.limited m eff)
    (hcap : ¬ (dots.filter (fun x => x.dot_type == new_dot.dot_type)).length < m)
    (hidx : find_first_idx
      (fun x => x.dot_type == new_dot.dot_type && !x.is_strongest) dots = some i)
    (hd : dots[i]? = some d) :
    ((apply_dot dots new_dot config)[i]?).map
        (fun x => (x.damage_per_tick, x.duration_remaining))
        = some ((if d.damage_per_tick < new_dot.damage_per_tick then
                  new_dot.damage_per_tick else d.damage_per_tick),
                new_dot.total_duration)
      ∧ ∀ j, j ≠ i →
        ((apply_dot dots new_dot config)[j]?).map
            (fun x => (x.damage_per_tick, x.duration_remaining))
          = (dots[j]?).map (fun x => (x.damage_per_tick, x.duration_remaining)) := by
  have hg : ∀ (x : ActiveDoT) (b : Bool),
      (fun y => (y.damage_per_tick, y.duration_remaining))
          ({ x with is_strongest := b }) =
        (fun y => (y.damage_per_tick, y.duration_remaining)) x := by
    intro x b; rfl
  unfold apply_dot
  rw [hstack]
  simp only
  rw [if_neg hcap]
  set p : ActiveDoT → Bool :=
    fun x => x.dot_type == new_dot.dot_type && !x.is_strongest with hp
  set f : ActiveDoT → ActiveDoT :=
    fun x => x.refresh new_dot.total_duration new_dot.damage_per_tick with hf
  constructor
  · rw [recalculate_strongest_get _ hg]
    rw [update_first_get_eq p f dots i hidx, hd]
    simp only [Option.map_some', hf]
    have h1 := activeDoT_refresh_fields d new_dot.total_duration new_dot.damage_per_tick
    simp [h1.1, h1.2]
  · intro j hj
    rw [recalculate_strongest_get _ hg]
    rw [update_first_get_ne p f dots i hidx j hj]

/-- Witness for the C5 amended theorem at a concrete at-cap configuration:
three bleed instances with per-tick damages 10, 5, 30 (the 30 one flagged
strongest), a fourth bleed applied with per-tick damage 7 and duration 9;
the first non-strongest instance (damage 10, index 0) gets duration 9. -/
theorem apply_dot_at_cap_refreshes_first_non_strongest_witness :
    ((apply_dot
        [⟨"bleed", "s", DamageType.physical, 10, 1, 1, 6, 6, 1, false⟩,
         ⟨"bleed", "s", DamageType.physical, 5, 1, 1, 5, 5, 1/2, false⟩,
         ⟨"bleed", "s", DamageType.physical, 30, 1, 1, 4, 4, 1/2, true⟩]
        ⟨"bleed", "s2", DamageType.physical, 7, 1, 1, 9, 9, 1, true⟩
        ⟨"bleed", "Bleed", DamageType.physical, DotStacking.limited 3 (1/2),
          5, 1, 1/5, 3, 1/2, 2⟩)[0]?).map
        (fun x => (x.damage_per_tick, x.duration_remaining))
      = some ((if (10 : ℚ) < 7 then 7 else 10), (9 : ℚ)) :=
  (apply_dot_at_cap_refreshes_first_non_strongest
    [⟨"bleed", "s", DamageType.physical, 10, 1, 1, 6, 6, 1, false⟩,
     ⟨"bleed", "s", DamageType.physical, 5, 1, 1, 5, 5, 1/2, false⟩,
     ⟨"bleed", "s", DamageType.physical, 30, 1, 1, 4, 4, 1/2, true⟩]
    ⟨"bleed", "s2", DamageType.physical, 7, 1, 1, 9, 9, 1, true⟩
    ⟨"bleed", "Bleed", DamageType.physical, DotStacking.limited 3 (1/2),
      5, 1, 1/5, 3, 1/2, 2⟩
    3 (1/2) 0 ⟨"bleed", "s", DamageType.physical, 10, 1, 1, 6, 6, 1, false⟩
    rfl (by decide) rfl rfl).1

/-- C5 counterexample: at max stacks, with bleed instances of per-tick
damage 10, 5 and 30 (durations 6, 5 and 4; the 30 one flagged strongest)
and a new bleed of per-tick damage 7 and duration 9, the code refreshes the
instance with damage 10 (first non-strongest) to duration 9, while the
weakest instance (damage 5, strictly below 10 and 30) keeps duration 5
instead of being refreshed to 9 as the claim requires. -/
theorem apply_dot_at_cap_weakest_counterexample :
    (apply_dot
        [⟨"bleed", "s", DamageType.physical, 10, 1, 1, 6, 6, 1, false⟩,
         ⟨"bleed", "s", DamageType.physical, 5, 1, 1, 5, 5, 1/2, false⟩,
         ⟨"bleed", "s", DamageType.physical, 30, 1, 1, 4, 4, 1/2, true⟩]
        ⟨"bleed", "s2", DamageType.physical, 7, 1, 1, 9, 9, 1, true⟩
        ⟨"bleed", "Bleed", DamageType.physical, DotStacking.limited 3 (1/2),
          5, 1, 1/5, 3, 1/2, 2⟩).map
        (fun x => (x.damage_per_tick, x.duration_remaining))
      = [(10, 9), (5, 5), (30, 4)]
      ∧ (5 : ℚ) < 10 ∧ (5 : ℚ) < 30 ∧ (5 : ℚ) ≠ 9 := by
  refine ⟨?_, by norm_num, by norm_num, by norm_num⟩
  norm_num [apply_dot, recalculate_strongest, recalc_strongest_aux,
    max_damage_of_type, update_first, ActiveDoT.refresh, abs_sub_lt_iff]

/-- C6 counterexample: a burn with 3 seconds remaining is refreshed by the
StrongestOnly stacking logic with a stronger burn whose duration is 1
second; afterwards only 1 second remains, strictly less than the 3 seconds
remaining before the refresh. -/
theorem refresh_shortens_duration_counterexample :
    (apply_dot
        [⟨"burn", "s", DamageType.fire, 50, 1/2, 1/2, 3, 4, 1, true⟩]
        ⟨"burn", "s2", DamageType.fire, 60, 1/2, 1/2, 1, 1, 1, true⟩
        ⟨"burn", "Burn", DamageType.fire, DotStacking.strongestOnly,
          4, 1/2, 1/4, 1, 1, 1⟩).map (fun x => x.duration_remaining)
      = [1]
      ∧ (1 : ℚ) < 3 := by
  refine ⟨?_, by norm_num⟩
  norm_num [apply_dot, recalculate_strongest, recalc_strongest_aux,
    max_damage_of_type, update_first, ActiveDoT.refresh, abs_sub_lt_iff]

/-- C6 amended: a refresh sets duration_remaining to exactly the refreshing
instance's duration, for ActiveDoT::refresh, for Effect::refresh, and for
the refresh performed by the StrongestOnly stacking path of apply_dot; the
new duration may be smaller than the time the effect had left, in which
case refreshing shortens it. -/
theorem refresh_sets_duration_amended
    (d : ActiveDoT) (rest : List ActiveDoT) (new_dot : ActiveDoT)
    (config : DotConfig) (e : Effect) (new_duration : ℚ)
    (hstack : config.stacking = DotStacking.strongestOnly)
    (ht : d.dot_type = new_dot.dot_type)
    (hdpt : d.damage_per_tick ≤ new_dot.damage_per_tick) :
    ((apply_dot (d :: rest) new_dot config)[0]?).map
        (fun x => x.duration_remaining) = some new_dot.total_duration
      ∧ (d.refresh new_duration new_dot.damage_per_tick).duration_remaining
          = new_duration
      ∧ (e.refresh new_duration).duration_remaining = new_duration := by
  have hg : ∀ (x : ActiveDoT) (b : Bool),
      (fun y => y.duration_remaining) ({ x with is_strongest := b }) =
        (fun y => y.duration_remaining) x := by
    intro x b; rfl
  refine ⟨?_, (activeDoT_refresh_fields d _ _).2, rfl⟩
  unfold apply_dot
  rw [hstack]
  simp only
  have hpx : (d.dot_type == new_dot.dot_type) = true := by
    simp [ht]
  have hany : (d :: rest).any (fun x => x.dot_type == new_dot.dot_type) = true := by
    simp [List.any_cons, hpx]
  rw [if_pos hany]
  rw [recalculate_strongest_get _ hg]
  simp only [update_first]
  rw [if_pos hpx]
  simp only [List.getElem?_cons_zero, Option.map_some']
  rw [if_pos hdpt]
  rw [(activeDoT_refresh_fields d _ _).2]

/-- Witness for the C6 amended theorem: refreshing a burn instance with
3 seconds left by a stronger burn of total duration 1 leaves exactly
1 second, and the plain refresh operations set the duration to the
given value. -/
theorem refresh_sets_duration_amended_witness :
    ((apply_dot
        [⟨"burn", "s", DamageType.fire, 50, 1/2, 1/2, 3, 4, 1, true⟩]
        ⟨"burn", "s2", DamageType.fire, 60, 1/2, 1/2, 1, 1, 1, true⟩
        ⟨"burn", "Burn", DamageType.fire, DotStacking.strongestOnly,
          4, 1/2, 1/4, 1, 1, 1⟩)[0]?).map (fun x => x.duration_remaining)
      = some (⟨"burn", "s2", DamageType.fire, 60, 1/2, 1/2, 1, 1, 1, true⟩ :
          ActiveDoT).total_duration :=
  (refresh_sets_duration_amended
    ⟨"burn", "s", DamageType.fire, 50, 1/2, 1/2, 3, 4, 1, true⟩ []
    ⟨"burn", "s2", DamageType.fire, 60, 1/2, 1/2, 1, 1, 1, true⟩
    ⟨"burn", "Burn", DamageType.fire, DotStacking.strongestOnly,
      4, 1/2, 1/4, 1, 1, 1⟩
    (Effect.burn 10 "s") 2 rfl rfl (by norm_num)).1

theorem tickLoop_neg (ttt rate dur per : ℚ)
    (h : ¬(ttt ≤ 0 ∧ 0 < dur ∧ 0 < rate)) :
    tickLoop ttt rate dur per = (0, ttt) := by
  rw [tickLoop.eq_def, dif_neg h]

theorem tickLoop_pos (ttt rate dur per : ℚ)
    (h : ttt ≤ 0 ∧ 0 < dur ∧ 0 < rate) :
    tickLoop ttt rate dur per
      = ((tickLoop (ttt + rate) rate dur per).1 + per,
         (tickLoop (ttt + rate) rate dur per).2) := by
  rw [tickLoop.eq_def, dif_pos h]

theorem tickLoop_fst_nonneg (ttt rate dur per : ℚ) (hper : 0 ≤ per) :
    0 ≤ (tickLoop ttt rate dur per).1 := by
  revert hper
  induction ttt, rate, dur, per using tickLoop.induct with
  | case1 ttt rate dur per h ih =>
      intro hper
      rw [tickLoop_pos ttt rate dur per h]
      have := ih hper
      simp only
      linarith
  | case2 ttt rate dur per h =>
      intro _
      rw [tickLoop_neg ttt rate dur per h]

theorem tickLoop_ge_per (ttt rate dur per : ℚ) (h1 : ttt ≤ 0) (h2 : 0 < dur)
    (h3 : 0 < rate) (hper : 0 ≤ per) : per ≤ (tickLoop ttt rate dur per).1 := by
  rw [tickLoop_pos ttt rate dur per ⟨h1, h2, h3⟩]
  have := tickLoop_fst_nonneg (ttt + rate) rate dur per hper
  simp only
  linarith

/-- C7 amended: the unified Effect::tick follows the claimed order for
damaging ailments: it decrements time_until_tick by delta, emits
dot_dps · tick_rate · stacks · effectiveness per due tick while the
still-undecremented duration_remaining is positive, and decrements
duration_remaining by delta only afterwards — so a damaging ailment with
positive remaining duration and a due tick emits at least one tick's
damage.  The ActiveDoT path process_dot_tick does not follow this order:
it decrements duration_remaining before ticking (see the
counterexample). -/
theorem effect_tick_emits_before_duration_decrement
    (e : Effect) (delta : ℚ) (status : StatusEffect)
    (magnitude dot_dps tick_rate time_until_tick : ℚ)
    (stacking : AilmentStacking) (effectiveness : ℚ)
    (he : e.effect_type = EffectType.ailment status magnitude dot_dps tick_rate
      time_until_tick stacking effectiveness)
    (hdps : 0 < dot_dps) (hrate : 0 < tick_rate) (heff : 0 ≤ effectiveness)
    (hdur : 0 < e.duration_remaining) (hdue : time_until_tick - delta ≤ 0) :
    (e.tick delta).1.duration_remaining = e.duration_remaining - delta
      ∧ dot_dps * tick_rate * (e.stack_count : ℚ) * effectiveness
          ≤ (e.tick delta).2 := by
  obtain ⟨id, name, et, dur, tot, stc, mx, src⟩ := e
  simp only at he
  subst he
  simp only [Effect.tick, if_pos hdps] at *
  constructor
  · trivial
  · exact tickLoop_ge_per _ _ _ _ hdue hdur hrate
      (by positivity)

/-- Witness for the C7 amended theorem: a burn of 100 dps (tick rate 0.5,
4 s duration) ticked with delta 2 still has its due ticks emitted: at least
one tick's worth, 100 · 0.5 · 1 · 1 = 50, is dealt, and the duration
afterwards is 4 - 2. -/
theorem effect_tick_emits_before_duration_decrement_witness :
    ((Effect.burn 100 "s").tick 2).1.duration_remaining
        = (Effect.burn 100 "s").duration_remaining - 2
      ∧ 100 * (1/2) * (((Effect.burn 100 "s").stack_count : ℕ) : ℚ) * 1
          ≤ ((Effect.burn 100 "s").tick 2).2 :=
  effect_tick_emits_before_duration_decrement (Effect.burn 100 "s") 2
    StatusEffect.burn 0 100 (1/2) (1/2) AilmentStacking.strongestOnly 1
    rfl (by norm_num) (by norm_num) (by norm_num)
    (by norm_num [Effect.burn, Effect.new_ailment]) (by norm_num)

/-- C7 counterexample: process_dot_tick decrements duration_remaining
before emitting ticks.  A DoT with 0.5 s remaining, 0.5 s until its next
tick and 50 damage per tick, stepped by delta = 0.5, has a due tick
(time_until_tick - delta ≤ 0) and positive remaining duration at the start
of the step, yet the step emits no damage at all, where the claimed order
would emit the 50-damage tick. -/
theorem process_dot_tick_order_counterexample :
    (process_dot_tick
        [⟨"burn", "s", DamageType.fire, 50, 1/2, 1/2, 1/2, 4, 1, true⟩]
        (1/2) false []).2.total_damage = 0
      ∧ (0 : ℚ) < 1/2
      ∧ (1/2 : ℚ) - 1/2 ≤ 0
      ∧ (50 : ℚ) * 1 ≠ 0 := by
  refine ⟨?_, by norm_num, by norm_num, by norm_num⟩
  norm_num [process_dot_tick, DotTickResult.add_damage, update_first,
    tickLoop_neg, ActiveDoT.is_active]

/-- C8 amended: applying an accumulator fans the all-attributes flat
contribution out to all six attributes, and fans the all-resistances
contribution out as a flat addition to the fire, cold and lightning
resistances only; chaos resistance receives just its own contribution, not
the all-resistances amount. -/
theorem apply_to_fans_out_attributes_and_resistances
    (a : StatAccumulator) (b : StatBlock) :
    ((a.apply_to b).strength.flat
        = b.strength.flat + (a.strength_flat + a.all_attributes_flat))
      ∧ ((a.apply_to b).dexterity.flat
        = b.dexterity.flat + (a.dexterity_flat + a.all_attributes_flat))
      ∧ ((a.apply_to b).intelligence.flat
        = b.intelligence.flat + (a.intelligence_flat + a.all_attributes_flat))
      ∧ ((a.apply_to b).constitution.flat
        = b.constitution.flat + (a.constitution_flat + a.all_attributes_flat))
      ∧ ((a.apply_to b).wisdom.flat
        = b.wisdom.flat + (a.wisdom_flat + a.all_attributes_flat))
      ∧ ((a.apply_to b).charisma.flat
        = b.charisma.flat + (a.charisma_flat + a.all_attributes_flat))
      ∧ ((a.apply_to b).fire_resistance.flat
        = b.fire_resistance.flat + (a.fire_resistance + a.all_resistances))
      ∧ ((a.apply_to b).cold_resistance.flat
        = b.cold_resistance.flat + (a.cold_resistance + a.all_resistances))
      ∧ ((a.apply_to b).lightning_resistance.flat
        = b.lightning_resistance.flat + (a.lightning_resistance + a.all_resistances))
      ∧ ((a.apply_to b).chaos_resistance.flat
        = b.chaos_resistance.flat + a.chaos_resistance) :=
  ⟨rfl, rfl, rfl, rfl, rfl, rfl, rfl, rfl, rfl, rfl⟩

/-- C8 counterexample: an accumulator holding only all_resistances = 10
applied to a fresh block leaves fire, cold and lightning resistance with
10 flat but chaos resistance with 0 flat, so chaos resistance does not
receive the all-resistances amount as the claim states. -/
theorem all_resistances_chaos_counterexample :
    (({ StatAccumulator.new with all_resistances := 10 }
        : StatAccumulator).apply_to StatBlock.new).fire_resistance.flat = 10
      ∧ (({ StatAccumulator.new with all_resistances := 10 }
        : StatAccumulator).apply_to StatBlock.new).cold_resistance.flat = 10
      ∧ (({ StatAccumulator.new with all_resistances := 10 }
        : StatAccumulator).apply_to StatBlock.new).lightning_resistance.flat = 10
      ∧ (({ StatAccumulator.new with all_resistances := 10 }
        : StatAccumulator).apply_to StatBlock.new).chaos_resistance.flat = 0
      ∧ (0 : ℚ) ≠ 10 := by
  refine ⟨?_, ?_, ?_, ?_, by norm_num⟩ <;>
    norm_num [StatAccumulator.apply_to, StatAccumulator.new, StatBlock.new,
      StatBlock.with_id, StatValue.add_flat]

/-- C4 amended: rebuild_from_sources preserves the block's id, its
equipped-items map and its internal buff sources, but resets the active
effect lists: after the call active_dots, active_buffs and
active_status_effects are empty regardless of their previous contents. -/
theorem rebuild_from_sources_identity (b : StatBlock)
    (sources : List StatSource) :
    (b.rebuild_from_sources sources).id = b.id
      ∧ (b.rebuild_from_sources sources).equipped_items = b.equipped_items
      ∧ (b.rebuild_from_sources sources).buff_sources = b.buff_sources
      ∧ (b.rebuild_from_sources sources).active_dots = []
      ∧ (b.rebuild_from_sources sources).active_buffs = []
      ∧ (b.rebuild_from_sources sources).active_status_effects = [] :=
  ⟨rfl, rfl, rfl, rfl, rfl, rfl⟩

/-- C4 counterexample: a block with one active DoT loses it across
rebuild_from_sources: afterwards the active_dots list is empty, not equal
to its previous one-element value. -/
theorem rebuild_clears_active_effects_counterexample :
    (({ StatBlock.new with active_dots :=
          [⟨"poison", "s", DamageType.chaos, 10, 1/3, 1/3, 2, 2, 1, true⟩] }
        : StatBlock).rebuild_from_sources []).active_dots = []
      ∧ ({ StatBlock.new with active_dots :=
          [⟨"poison", "s", DamageType.chaos, 10, 1/3, 1/3, 2, 2, 1, true⟩] }
        : StatBlock).active_dots ≠ [] := by
  exact ⟨rfl, by simp⟩

theorem add_effect_current_life (b : StatBlock) (e : Effect) :
    (b.add_effect e).current_life = b.current_life := rfl

theorem add_effect_current_es (b : StatBlock) (e : Effect) :
    (b.add_effect e).current_energy_shield = b.current_energy_shield := rfl

theorem apply_pending_statuses_life :
    ∀ (pend : List PendingStatusEffect) (b : StatBlock) (tmh : ℚ)
      (src : String) (rng : Rng),
      (apply_pending_statuses b pend tmh src rng).1.current_life
        = b.current_life := by
  intro pend
  induction pend with
  | nil => intro b tmh src rng; rfl
  | cons p rest ih =>
      intro b tmh src rng
      simp only [apply_pending_statuses]
      split
      · exact ih _ tmh src _
      · exact ih _ tmh src _

theorem apply_pending_statuses_es :
    ∀ (pend : List PendingStatusEffect) (b : StatBlock) (tmh : ℚ)
      (src : String) (rng : Rng),
      (apply_pending_statuses b pend tmh src rng).1.current_energy_shield
        = b.current_energy_shield := by
  intro pend
  induction pend with
  | nil => intro b tmh src rng; rfl
  | cons p rest ih =>
      intro b tmh src rng
      simp only [apply_pending_statuses]
      split
      · exact ih _ tmh src _
      · exact ih _ tmh src _

theorem absorb_damage_spec (es life total : ℚ) (hes : 0 ≤ es) :
    absorb_damage es life total
      = (max (es - max total 0) 0,
         max (life - max (total - es) 0) 0,
         min (max total 0) es,
         decide (life - max (total - es) 0 ≤ 0)) := by
  simp only [absorb_damage]
  by_cases hT : 0 < total
  · rw [max_eq_left hT.le]
    by_cases hE : 0 < es
    · rw [if_pos (show 0 < es ∧ 0 < total from ⟨hE, hT⟩)]
      simp only
      rcases le_total total es with hte | hte
      · rw [min_eq_left hte, sub_self,
          if_neg (lt_irrefl (0 : ℚ)),
          max_eq_right (by linarith : total - es ≤ (0 : ℚ)), sub_zero,
          max_eq_left (by linarith : (0 : ℚ) ≤ es - total)]
        split_ifs with hl
        · simp [max_eq_right hl, hl]
        · simp [max_eq_left (le_of_not_le hl), hl]
      · rw [min_eq_right hte, sub_self,
          max_eq_left (by linarith : (0 : ℚ) ≤ total - es),
          max_eq_right (by linarith : es - total ≤ (0 : ℚ))]
        by_cases hrem : 0 < total - es
        · rw [if_pos hrem]
          split_ifs with hl
          · simp [max_eq_right hl, hl]
          · simp [max_eq_left (le_of_not_le hl), hl]
        · have hteq : total = es := by
            rcases lt_or_eq_of_le hte with h | h
            · exact absurd (by linarith) hrem
            · exact h.symm
          subst hteq
          rw [if_neg hrem, sub_self, sub_zero]
          split_ifs with hl
          · simp [max_eq_right hl, hl]
          · simp [max_eq_left (le_of_not_le hl), hl]
    · have hE0 : es = 0 := le_antisymm (not_lt.mp hE) hes
      subst hE0
      rw [if_neg (show ¬((0 : ℚ) < 0 ∧ 0 < total) from
        fun h => absurd h.1 (lt_irrefl 0))]
      simp only
      rw [if_pos hT]
      simp only [sub_zero]
      rw [max_eq_left hT.le,
        max_eq_right (show (0 : ℚ) - total ≤ 0 by linarith),
        min_eq_right hT.le]
      split_ifs with hl
      · simp [max_eq_right hl, hl]
      · simp [max_eq_left (le_of_not_le hl), hl]
  · rw [if_neg (show ¬(0 < es ∧ 0 < total) from fun h => hT h.2)]
    simp only
    rw [if_neg hT,
      max_eq_right (not_lt.mp hT),
      max_eq_right (show total - es ≤ 0 by linarith [not_lt.mp hT])]
    simp only [sub_zero]
    rw [max_eq_left hes, min_eq_left hes]
    split_ifs with hl
    · simp [max_eq_right hl, hl]
    · simp [max_eq_left (le_of_not_le hl), hl]

theorem absorb_es_formula (es life total : ℚ) (hes : 0 < es) :
    (absorb_damage es life total).1 = max (es - max total 0) 0 := by
  rw [absorb_damage_spec es life total hes.le]

theorem absorb_life_formula (es life total : ℚ) (hes : 0 < es) :
    (absorb_damage es life total).2.1 = max (life - max (total - es) 0) 0 := by
  rw [absorb_damage_spec es life total hes.le]

theorem absorb_life_monotone (es life total : ℚ) (hes : 0 < es)
    (h : 0 < (absorb_damage es life total).1) :
    life ≤ (absorb_damage es life total).2.1 := by
  rw [absorb_damage_spec es life total hes.le] at h ⊢
  simp only at h ⊢
  have hlt : max total 0 < es := by
    by_contra hc
    push_neg at hc
    have : es - max total 0 ≤ 0 := by linarith
    rw [max_eq_right this] at h
    exact lt_irrefl 0 h
  have h1 : total - es ≤ 0 := by
    have := le_max_left total 0
    linarith
  rw [max_eq_right h1, sub_zero]
  exact le_max_left life 0

theorem absorb_killed_iff (es life total : ℚ) (hes : 0 < es) :
    ((absorb_damage es life total).2.2.2 = true
      ↔ life - max (total - es) 0 ≤ 0) := by
  rw [absorb_damage_spec es life total hes.le]
  simp

theorem absorb_bounds (es life total : ℚ) (h1 : 0 ≤ es) (h2 : 0 ≤ life) :
    0 ≤ (absorb_damage es life total).1
      ∧ (absorb_damage es life total).1 ≤ es
      ∧ 0 ≤ (absorb_damage es life total).2.1
      ∧ (absorb_damage es life total).2.1 ≤ life := by
  rw [absorb_damage_spec es life total h1]
  refine ⟨le_max_right _ _, ?_, le_max_right _ _, ?_⟩
  · exact max_le (by linarith [le_max_right total 0]) h1
  · exact max_le (by linarith [le_max_right (total - es) 0]) h2

theorem resolve_es_eq_absorb (defender : StatBlock) (packet : DamagePacket)
    (rng : Rng) :
    (resolve_damage_with_rng defender packet rng).1.current_energy_shield
      = (absorb_damage defender.current_energy_shield defender.current_life
          (resolve_damage_with_rng defender packet rng).2.1.total_damage).1 := by
  show (apply_pending_statuses _ _ _ _ _).1.current_energy_shield = _
  rw [apply_pending_statuses_es]
  rfl

theorem resolve_life_eq_absorb (defender : StatBlock) (packet : DamagePacket)
    (rng : Rng) :
    (resolve_damage_with_rng defender packet rng).1.current_life
      = (absorb_damage defender.current_energy_shield defender.current_life
          (resolve_damage_with_rng defender packet rng).2.1.total_damage).2.1 := by
  show (apply_pending_statuses _ _ _ _ _).1.current_life = _
  rw [apply_pending_statuses_life]
  rfl

theorem resolve_killed_eq_absorb (defender : StatBlock) (packet : DamagePacket)
    (rng : Rng) :
    (resolve_damage_with_rng defender packet rng).2.1.is_killing_blow
      = (absorb_damage defender.current_energy_shield defender.current_life
          (resolve_damage_with_rng defender packet rng).2.1.total_damage).2.2.2 :=
  rfl

/-- C3: with energy shield up, resolution subtracts the final damage total
from the energy shield first: the new shield is (es − total) floored at 0,
life is not decremented while any shield remains, the remainder
(total − es, floored at 0) subtracts from life, and when life falls to 0 or
below it is clamped to exactly 0 with is_killing_blow set. -/
theorem resolve_damage_es_before_life (defender : StatBlock)
    (packet : DamagePacket) (rng : Rng)
    (hes : 0 < defender.current_energy_shield) :
    (resolve_damage_with_rng defender packet rng).1.current_energy_shield
        = max (defender.current_energy_shield
            - max (resolve_damage_with_rng defender packet rng).2.1.total_damage 0) 0
      ∧ (0 < (resolve_damage_with_rng defender packet rng).1.current_energy_shield →
          defender.current_life
            ≤ (resolve_damage_with_rng defender packet rng).1.current_life)
      ∧ (resolve_damage_with_rng defender packet rng).1.current_life
        = max (defender.current_life
            - max ((resolve_damage_with_rng defender packet rng).2.1.total_damage
                - defender.current_energy_shield) 0) 0
      ∧ ((resolve_damage_with_rng defender packet rng).2.1.is_killing_blow = true
          ↔ defender.current_life
            - max ((resolve_damage_with_rng defender packet rng).2.1.total_damage
                - defender.current_energy_shield) 0 ≤ 0) := by
  refine ⟨?_, ?_, ?_, ?_⟩
  · rw [resolve_es_eq_absorb]
    exact absorb_es_formula _ _ _ hes
  · intro h
    rw [resolve_es_eq_absorb] at h
    rw [resolve_life_eq_absorb]
    exact absorb_life_monotone _ _ _ hes h
  · rw [resolve_life_eq_absorb]
    exact absorb_life_formula _ _ _ hes
  · rw [resolve_killed_eq_absorb]
    exact absorb_killed_iff _ _ _ hes

/-- Witness for C3 at a concrete input: a defender with 100 life and 50
energy shield hit by a 75 fire-damage packet. -/
theorem resolve_damage_es_before_life_witness :
    (0 : ℚ) < c3_defender.current_energy_shield
      ∧ (resolve_damage_with_rng c3_defender c3_packet
            ⟨[]⟩).1.current_energy_shield
          = max (c3_defender.current_energy_shield
              - max (resolve_damage_with_rng c3_defender c3_packet
                  ⟨[]⟩).2.1.total_damage 0) 0 :=
  ⟨by norm_num [c3_defender, StatBlock.new, StatBlock.with_id],
   (resolve_damage_es_before_life c3_defender c3_packet ⟨[]⟩
      (by norm_num [c3_defender, StatBlock.new, StatBlock.with_id])).1⟩

/-- C10: on a defender with non-negative life and energy shield, resolution
never increases and never drives negative either resource, for every
damage packet including ones with zero or negative damage entries. -/
theorem resolve_damage_resource_bounds (defender : StatBlock)
    (packet : DamagePacket) (rng : Rng)
    (hlife : 0 ≤ defender.current_life)
    (hes : 0 ≤ defender.current_energy_shield) :
    0 ≤ (resolve_damage_with_rng defender packet rng).1.current_energy_shield
      ∧ (resolve_damage_with_rng defender packet rng).1.current_energy_shield
          ≤ defender.current_energy_shield
      ∧ 0 ≤ (resolve_damage_with_rng defender packet rng).1.current_life
      ∧ (resolve_damage_with_rng defender packet rng).1.current_life
          ≤ defender.current_life := by
  have hb := absorb_bounds defender.current_energy_shield defender.current_life
    (resolve_damage_with_rng defender packet rng).2.1.total_damage hes hlife
  rw [resolve_es_eq_absorb, resolve_life_eq_absorb]
  exact ⟨hb.1, hb.2.1, hb.2.2.1, hb.2.2.2⟩

/-- Witness for C10 at a concrete input: a fresh defender hit by a packet
carrying 50 fire and a negative -10 physical entry. -/
theorem resolve_damage_resource_bounds_witness :
    (0 : ℚ) ≤ StatBlock.new.current_life
      ∧ (0 : ℚ) ≤ StatBlock.new.current_energy_shield
      ∧ (0 ≤ (resolve_damage_with_rng StatBlock.new c10_packet
            ⟨[]⟩).1.current_energy_shield
        ∧ (resolve_damage_with_rng StatBlock.new c10_packet
            ⟨[]⟩).1.current_energy_shield
            ≤ StatBlock.new.current_energy_shield
        ∧ 0 ≤ (resolve_damage_with_rng StatBlock.new c10_packet
            ⟨[]⟩).1.current_life
        ∧ (resolve_damage_with_rng StatBlock.new c10_packet
            ⟨[]⟩).1.current_life
            ≤ StatBlock.new.current_life) :=
  ⟨by norm_num [StatBlock.new, StatBlock.with_id],
   by norm_num [StatBlock.new, StatBlock.with_id],
   resolve_damage_resource_bounds StatBlock.new c10_packet ⟨[]⟩
     (by norm_num [StatBlock.new, StatBlock.with_id])
     (by norm_num [StatBlock.new, StatBlock.with_id])⟩

/-- C9: the skill DPS estimator is deterministic and consumes no RNG: in
state-threading form against an ambient RNG stream, the output is the pure
calculate_skill_dps value — identical across two calls regardless of the
ambient streams — and the stream is returned unchanged.  On a fresh
attacker and a 100-100 physical skill with no weapon scaling, it computes
100 · (1 + 0.5 · 0.05) = 102.5. -/
theorem calculate_skill_dps_deterministic (attacker : StatBlock)
    (skill : DamagePacketGenerator) (r1 r2 : Rng) :
    (calculate_skill_dps_run attacker skill r1).1
        = (calculate_skill_dps_run attacker skill r2).1
      ∧ (calculate_skill_dps_run attacker skill r1).2 = r1
      ∧ calculate_skill_dps_run attacker skill r1
          = (calculate_skill_dps attacker skill, r1)
      ∧ calculate_skill_dps StatBlock.new c9_skill = 205/2 := by
  refine ⟨rfl, rfl, rfl, ?_⟩
  norm_num [calculate_skill_dps, calculate_skill_dps_run, c9_skill,
    calculate_average_damage_by_type, damage_type_order, DMap.add, DMap.get,
    calculate_crit_chance, calculate_combined_status_damage,
    calculate_status_dot_dps, rclamp, StatBlock.new, StatBlock.with_id,
    StatBlock.computed_attack_speed, StatBlock.computed_cast_speed,
    StatBlock.computed_crit_multiplier, StatBlock.weapon_damage,
    StatValue.compute, StatValue.with_base, StatValue.total_increased_multiplier,
    StatValue.total_more_multiplier, DamagePacketGenerator.is_attack,
    DamageTypeEffectiveness.get, StatusEffectData.get_stats,
    StatusEffectData.get_conversions, StatusConversions.from_damage_type,
    SkillStatusConversions.get_conversion, Effect.base_dot_percent_for,
    DamageConversions.has_conversions]

end StatCore
